import Mathlib

/-!
# clink terminal helpers: console mode, mouse policy, cursor lock, cursor style

A shallow embedding of `clink/terminal/src/terminal_helpers.cpp` and of the class
`shadow_bool` of `clink/lib/include/lib/matches.h`.

* `DWORD` values are natural numbers below `2 ^ 32`; the bitwise complement
  `~x` of a `DWORD` is `0xFFFFFFFF ^^^ x`; the sentinel `(DWORD)-1` is
  `0xFFFFFFFF`.
* The process-wide variables of the translation unit are fields of explicit
  state records which every function takes and returns.
* The Win32 console is a map from handles to the state the console
  keeps for them; a handle that is absent from the map is not a console, and
  `GetConsoleMode` / `SetConsoleMode` fail on it.  `SetConsoleMode` on a
  console handle stores the mode it is given.
* `assert` is modelled as in a debug build: a failed assertion stops the
  function and reports the state reached so far.
-/

namespace Clink

/-! ## Win32 types and constants -/

/-- A Win32 `HANDLE`, as its numeric value; `0` is the null handle. -/
abbrev HANDLE := Nat

/-- A Win32 `DWORD`: an unsigned 32-bit value. -/
abbrev DWORD := Nat

def INVALID_HANDLE_VALUE : HANDLE := 2 ^ 64 - 1

def ENABLE_PROCESSED_INPUT : DWORD := 0x0001
def ENABLE_LINE_INPUT : DWORD := 0x0002
def ENABLE_ECHO_INPUT : DWORD := 0x0004
def ENABLE_WINDOW_INPUT : DWORD := 0x0008
def ENABLE_MOUSE_INPUT : DWORD := 0x0010
def ENABLE_INSERT_MODE : DWORD := 0x0020
def ENABLE_QUICK_EDIT_MODE : DWORD := 0x0040
def ENABLE_EXTENDED_FLAGS : DWORD := 0x0080
def ENABLE_AUTO_POSITION : DWORD := 0x0100

/-- The value of `(DWORD)-1`. -/
def DWORD_MINUS_ONE : DWORD := 0xFFFFFFFF

/-- The C expression `~x` converted to `DWORD`. -/
def dwNot (x : DWORD) : DWORD := 0xFFFFFFFF ^^^ x

/-- Conversion of a C `bool` to `int`. -/
def boolToInt (b : Bool) : Int := if b then 1 else 0

/-- The C expression `!!x` for an `int` x. -/
def notNot (x : Int) : Bool := decide (x ≠ 0)

/-- Modelled from the spec: the enum `ansi_handler` and `get_native_ansi_handler`
are declared outside the given sources.  The spec names three host kinds; the
code distinguishes `conemu` (the terminal-multiplexer-style host) from every
other one. -/
inductive ansi_handler where
  | winconsole
  | conemu
  | winterminal
  deriving DecidableEq, Repr

/-! ## Mouse policy resolver -/

/-- The function `select_mouse_input`, lines 155-194.  The arguments before `mode` are
the values the function reads from its environment: the global
`g_accept_mouse_input`, `g_mouse_input.get()` and `get_native_ansi_handler()`. -/
def select_mouse_input (g_accept_mouse_input : Bool) (mouse_input : Int)
    (native : ansi_handler) (mode : DWORD) : DWORD :=
  if !g_accept_mouse_input then
    0
  else
    match mouse_input with
    | 1 =>
      match native with
      | ansi_handler.conemu => mode ||| ENABLE_MOUSE_INPUT
      | _ => (mode &&& dwNot ENABLE_QUICK_EDIT_MODE) ||| ENABLE_MOUSE_INPUT
    | 2 =>
      match native with
      | ansi_handler.conemu => mode ||| ENABLE_MOUSE_INPUT
      | _ => mode ||| (if mode &&& ENABLE_QUICK_EDIT_MODE ≠ 0 then 0 else ENABLE_MOUSE_INPUT)
    | _ => mode

/-! ## The console input mode and the scoped console session -/

/-- The state the console session and the input mode cache work on. -/
structure World where
  /-- The input mode of each console input handle; `none` for a handle on which
  `GetConsoleMode` and `SetConsoleMode` fail. -/
  modes : HANDLE → Option DWORD
  /-- The result of `GetStdHandle(STD_INPUT_HANDLE)`. -/
  stdin : HANDLE
  g_accept_mouse_input : Bool
  s_host_input_mode : DWORD
  s_clink_input_mode : DWORD
  /-- The value of `g_mouse_input.get()`. -/
  mouse_input : Int
  /-- The value of `get_native_ansi_handler()`. -/
  native : ansi_handler

def GetConsoleMode (w : World) (h : HANDLE) : Option DWORD := w.modes h

def SetConsoleMode (w : World) (h : HANDLE) (mode : DWORD) : World :=
  match w.modes h with
  | some _ => { w with modes := fun k => if k = h then some mode else w.modes k }
  | none => w

/-- The function `save_host_input_mode`, lines 117-120. -/
def save_host_input_mode (w : World) (mode : DWORD) : World :=
  { w with s_host_input_mode := mode }

/-- The data members of `console_config`. -/
structure console_config where
  m_handle : HANDLE
  m_prev_mode : DWORD
  m_prev_accept_mouse_input : Bool
  deriving DecidableEq, Repr

/-- The mode that the constructor of `console_config` computes from the mode it has read
(lines 209-212), given the already updated `g_accept_mouse_input`. -/
def console_config.working_mode (g_accept_mouse_input : Bool) (mouse_input : Int)
    (native : ansi_handler) (m_prev_mode : DWORD) : DWORD :=
  let mode := m_prev_mode
  let mode := mode &&& dwNot (ENABLE_PROCESSED_INPUT ||| ENABLE_LINE_INPUT |||
    ENABLE_ECHO_INPUT ||| ENABLE_MOUSE_INPUT)
  let mode := mode ||| ENABLE_WINDOW_INPUT
  select_mouse_input g_accept_mouse_input mouse_input native mode

/-- The member initialiser of `m_handle`, line 198:
`handle ? handle : GetStdHandle(STD_INPUT_HANDLE)`. -/
def console_config.resolve_handle (w : World) (handle : HANDLE) : HANDLE :=
  if handle ≠ 0 then handle else w.stdin

/-- The constructor `console_config::console_config`, lines 197-214.  `uninit` is the
indeterminate content of `m_prev_mode` before `GetConsoleMode` writes it; it is what
the member keeps when the call fails. -/
def console_config.ctor (w : World) (handle : HANDLE) (accept_mouse_input : Bool)
    (uninit : DWORD) : World × console_config :=
  let m_handle := console_config.resolve_handle w handle
  let m_prev_mode := (GetConsoleMode w m_handle).getD uninit
  let w := save_host_input_mode w m_prev_mode
  let m_prev_accept_mouse_input := w.g_accept_mouse_input
  let w := { w with g_accept_mouse_input := accept_mouse_input }
  let mode := console_config.working_mode w.g_accept_mouse_input w.mouse_input w.native
    m_prev_mode
  (SetConsoleMode w m_handle mode,
    { m_handle := m_handle, m_prev_mode := m_prev_mode,
      m_prev_accept_mouse_input := m_prev_accept_mouse_input })

/-- The destructor `console_config::~console_config`, lines 216-220. -/
def console_config.dtor (w : World) (c : console_config) : World :=
  let w := SetConsoleMode w c.m_handle c.m_prev_mode
  { w with g_accept_mouse_input := c.m_prev_accept_mouse_input }

/-! ## Assertions -/

/-- The result of a function that contains an `assert`: either it returns, or the
assertion fails in the state reached at that point. -/
inductive Outcome (σ : Type) (α : Type) where
  | returned (s : σ) (a : α)
  | assertion_failed (s : σ)

/-- Whether the assertion of the call failed. -/
def Outcome.failed {σ α : Type} : Outcome σ α → Bool
  | Outcome.returned _ _ => false
  | Outcome.assertion_failed _ => true

/-- The state in which the call ended: at its return, or at the failed assertion. -/
def Outcome.state {σ α : Type} : Outcome σ α → σ
  | Outcome.returned s _ => s
  | Outcome.assertion_failed s => s

/-- The value a call returned, if it returned. -/
def Outcome.value {σ α : Type} : Outcome σ α → Option α
  | Outcome.returned _ a => some a
  | Outcome.assertion_failed _ => none

/-! ## Cursor lock and cursor style -/

/-- The Win32 structure `CONSOLE_CURSOR_INFO`; `bVisible` is a `BOOL`, that is an `int`. -/
structure CONSOLE_CURSOR_INFO where
  dwSize : DWORD
  bVisible : Int
  deriving DecidableEq, Repr

/-- Conversion of a `DWORD` to `int` (two's complement, as compiled for Windows). -/
def toInt32 (n : DWORD) : Int :=
  if n % 2 ^ 32 < 2 ^ 31 then ((n % 2 ^ 32 : Nat) : Int) else ((n % 2 ^ 32 : Nat) : Int) - 2 ^ 32

/-- Conversion of an `int` to `DWORD`. -/
def toDWORD (x : Int) : DWORD := (x % 2 ^ 32).toNat

/-- The state the cursor functions work on. -/
structure CursorWorld where
  /-- The cursor information of each console output handle; `none` for a handle on
  which `GetConsoleCursorInfo` and `SetConsoleCursorInfo` fail. -/
  cursors : HANDLE → Option CONSOLE_CURSOR_INFO
  /-- The result of `GetStdHandle(STD_OUTPUT_HANDLE)`. -/
  stdout : HANDLE
  /-- The value of `g_adjust_cursor_style.get()`. -/
  adjust_cursor_style : Bool
  g_enhanced_cursor : Bool
  s_locked_cursor_visibility : Bool
  /-- The function-local static of `cursor_style`, initially `-1`. -/
  g_default_cursor_size : Int
  /-- The function-local static of `cursor_style`, initially `100`. -/
  g_alternate_cursor_size : Int

def GetConsoleCursorInfo (w : CursorWorld) (h : HANDLE) : Option CONSOLE_CURSOR_INFO :=
  w.cursors h

def SetConsoleCursorInfo (w : CursorWorld) (h : HANDLE) (ci : CONSOLE_CURSOR_INFO) :
    CursorWorld :=
  match w.cursors h with
  | some _ => { w with cursors := fun k => if k = h then some ci else w.cursors k }
  | none => w

/-- The function `is_locked_cursor`, lines 55-58. -/
def is_locked_cursor (w : CursorWorld) : Int :=
  boolToInt w.s_locked_cursor_visibility

/-- The function `lock_cursor`, lines 61-67. -/
def lock_cursor (w : CursorWorld) (lock : Int) : Outcome CursorWorld Int :=
  if !(!(notNot lock) || !w.s_locked_cursor_visibility) then
    Outcome.assertion_failed w
  else
    let was_locked := w.s_locked_cursor_visibility
    let w := { w with s_locked_cursor_visibility := notNot lock }
    Outcome.returned w (boolToInt was_locked)

/-- The first-encounter block of `cursor_style`, lines 81-88: the function-local statics
after it has run with `ci` read. -/
def cursor_style.capture (w : CursorWorld) (ci : CONSOLE_CURSOR_INFO) : CursorWorld :=
  if w.g_default_cursor_size < 0 then
    let w := { w with g_default_cursor_size := toInt32 ci.dwSize }
    if w.g_default_cursor_size ≥ 75 then
      { w with g_alternate_cursor_size := 50 }
    else w
  else w

/-- The function `cursor_style`, lines 70-108.  `uninit` is the indeterminate content of
the local `ci` before `GetConsoleCursorInfo` writes it; it is what `ci` keeps when the
call fails. -/
def cursor_style (w : CursorWorld) (handle : HANDLE) (style visible : Int)
    (uninit : CONSOLE_CURSOR_INFO) : CursorWorld × Int :=
  let handle := if handle = 0 then w.stdout else handle
  let ci := (GetConsoleCursorInfo w handle).getD uninit
  let was_visible := boolToInt (notNot ci.bVisible)
  let w := cursor_style.capture w ci
  if is_locked_cursor w ≠ 0 || !w.adjust_cursor_style then
    (w, was_visible)
  else if style < 0 && visible < 0 then
    (w, was_visible)
  else
    let style' := if style < 0 then boolToInt w.g_enhanced_cursor else style
    let w := if style < 0 then w else { w with g_enhanced_cursor := notNot style }
    let ci := { ci with dwSize := toDWORD (if style' ≠ 0 then w.g_alternate_cursor_size
      else w.g_default_cursor_size) }
    let ci := if visible ≥ 0 then { ci with bVisible := boolToInt (notNot visible) } else ci
    (SetConsoleCursorInfo w handle ci, was_visible)

/-- The function-local statics of `cursor_style` hold their initialisers: no call of
`cursor_style` has happened yet. -/
def CursorWorld.fresh (w : CursorWorld) : Prop :=
  w.g_default_cursor_size = -1 ∧ w.g_alternate_cursor_size = 100

/-- One call of `cursor_style` in a run of the process, together with what the rest of
the process and the host did since the previous call: `env` gives every part of the
state except the two function-local statics of `cursor_style`, which nothing else can
reach. -/
structure CursorCall where
  env : CursorWorld
  handle : HANDLE
  style : Int
  visible : Int
  uninit : CONSOLE_CURSOR_INFO

/-- The state in which a call of a run starts: the environment of the call with the
function-local statics of `cursor_style` as the previous call left them. -/
def CursorCall.enter (c : CursorCall) (w : CursorWorld) : CursorWorld :=
  { c.env with g_default_cursor_size := w.g_default_cursor_size,
               g_alternate_cursor_size := w.g_alternate_cursor_size }

/-- The content of the local `ci` of a call after `GetConsoleCursorInfo`. -/
def CursorCall.observed (c : CursorCall) : CONSOLE_CURSOR_INFO :=
  (GetConsoleCursorInfo c.env (if c.handle = 0 then c.env.stdout else c.handle)).getD
    c.uninit

/-- The state after one call of a run. -/
def CursorCall.exec (w : CursorWorld) (c : CursorCall) : CursorWorld :=
  (cursor_style (c.enter w) c.handle c.style c.visible c.uninit).1

/-- The state after a sequence of calls. -/
def CursorCall.run (w : CursorWorld) (cs : List CursorCall) : CursorWorld :=
  cs.foldl CursorCall.exec w

/-! ## Scoped printer session -/

/-- The four lifecycle hooks of `terminal_out`. -/
inductive Hook where
  | hook_open
  | hook_begin
  | hook_end
  | hook_close
  deriving DecidableEq, Repr

/-- The state the printer session works on.  Pointers are numbers, `0` is `nullptr`;
`trace` lists the hooks executed so far with the terminal they ran on, oldest first. -/
structure PrinterWorld where
  g_printer : Nat
  trace : List (Nat × Hook)
  deriving DecidableEq, Repr

/-- A call of a lifecycle hook on a terminal, which is recorded in the trace. -/
def terminal_call (w : PrinterWorld) (terminal : Nat) (hook : Hook) : PrinterWorld :=
  { w with trace := w.trace ++ [(terminal, hook)] }

/-- The data members of `printer_context`. -/
structure printer_context where
  m_terminal : Nat
  m_rb_printer : Nat
  deriving DecidableEq, Repr

/-- The constructor `printer_context::printer_context`, lines 225-234. -/
def printer_context.ctor (w : PrinterWorld) (terminal printer : Nat) :
    Outcome PrinterWorld printer_context :=
  let c : printer_context := { m_terminal := terminal, m_rb_printer := w.g_printer }
  let w := terminal_call w c.m_terminal Hook.hook_open
  let w := terminal_call w c.m_terminal Hook.hook_begin
  if !(w.g_printer == 0) then
    Outcome.assertion_failed w
  else
    Outcome.returned { w with g_printer := printer } c

/-- The destructor `printer_context::~printer_context`, lines 237-241. -/
def printer_context.dtor (w : PrinterWorld) (c : printer_context) : PrinterWorld :=
  let w := terminal_call w c.m_terminal Hook.hook_end
  terminal_call w c.m_terminal Hook.hook_close

/-! ## Input mode cache -/

/-- The function `use_host_input_mode`, lines 123-135. -/
def use_host_input_mode (w : World) : World :=
  let h := w.stdin
  if h ≠ 0 ∧ h ≠ INVALID_HANDLE_VALUE then
    let w := match GetConsoleMode w h with
      | some mode => { w with s_clink_input_mode := mode }
      | none => w
    if w.s_host_input_mode ≠ DWORD_MINUS_ONE then
      SetConsoleMode w h w.s_host_input_mode
    else w
  else w

/-- The function `use_clink_input_mode`, lines 138-150. -/
def use_clink_input_mode (w : World) : World :=
  let h := w.stdin
  if h ≠ 0 ∧ h ≠ INVALID_HANDLE_VALUE then
    let w := if w.s_host_input_mode = DWORD_MINUS_ONE then
        match GetConsoleMode w h with
        | some mode => { w with s_host_input_mode := mode }
        | none => w
      else w
    if w.s_clink_input_mode ≠ DWORD_MINUS_ONE then
      SetConsoleMode w h w.s_clink_input_mode
    else w
  else w

/-! ## Concrete states used in examples -/

/-- A process whose standard input is handle `3`, a console with input mode `M`; no input
mode has been cached yet. -/
def exampleWorld (M : DWORD) (A : Bool) (setting : Int) (host : ansi_handler) : World :=
  { modes := fun k => if k = 3 then some M else none
    stdin := 3
    g_accept_mouse_input := A
    s_host_input_mode := DWORD_MINUS_ONE
    s_clink_input_mode := DWORD_MINUS_ONE
    mouse_input := setting
    native := host }

/-- A process in which the printer at address `1` is active and no hook has run. -/
def examplePrinterWorld : PrinterWorld := { g_printer := 1, trace := [] }

/-- A console output at handle `7`, which is the standard output, with a visible cursor of
size `size`; the statics of `cursor_style` hold their initialisers. -/
def exampleCursorWorld (size : DWORD) (locked adjust : Bool) : CursorWorld :=
  { cursors := fun k => if k = 7 then some { dwSize := size, bVisible := 1 } else none
    stdout := 7
    adjust_cursor_style := adjust
    g_enhanced_cursor := false
    s_locked_cursor_visibility := locked
    g_default_cursor_size := -1
    g_alternate_cursor_size := 100 }

/-- A call `cursor_style(NULL, style, visible)` made while the host reports the cursor size
`size`. -/
def exampleCall (size : DWORD) (locked adjust : Bool) (style visible : Int) : CursorCall :=
  { env := exampleCursorWorld size locked adjust
    handle := 0
    style := style
    visible := visible
    uninit := { dwSize := 0, bVisible := 0 } }

/-- The set of mode bits the console session manages. -/
def managedBits : DWORD :=
  ENABLE_PROCESSED_INPUT ||| ENABLE_LINE_INPUT ||| ENABLE_ECHO_INPUT |||
    ENABLE_MOUSE_INPUT ||| ENABLE_WINDOW_INPUT ||| ENABLE_QUICK_EDIT_MODE

/-- A process whose standard input is handle `3`, a console with input mode `T`, with the
cached host mode `H` and the cached application mode `C`. -/
def exampleCacheWorld (T H C : DWORD) : World :=
  { modes := fun k => if k = 3 then some T else none
    stdin := 3
    g_accept_mouse_input := false
    s_host_input_mode := H
    s_clink_input_mode := C
    mouse_input := 0
    native := ansi_handler.winconsole }

/-! ## Settings -/

/-- Modelled from the spec: the class `setting_bool` is declared in `core/settings.h`,
outside the given sources.  A setting is constructed with its name and its default and is
read with `get()`, which gives the default as long as no value has been stored. -/
structure setting_bool where
  name : String
  default_value : Bool
  stored : Option Bool
  deriving DecidableEq, Repr

def setting_bool.get (s : setting_bool) : Bool := s.stored.getD s.default_value

/-- Modelled from the spec: the class `setting_enum` is declared in `core/settings.h`,
outside the given sources.  A setting is constructed with its name, the list of its
values and the index of its default and is read with `get()`, which gives the default as
long as no value has been stored. -/
structure setting_enum where
  name : String
  options : String
  default_value : Int
  stored : Option Int
  deriving DecidableEq, Repr

def setting_enum.get (s : setting_enum) : Int := s.stored.getD s.default_value

/-- The definition of `g_adjust_cursor_style`, lines 20-29, without its description. -/
def g_adjust_cursor_style : setting_bool :=
  { name := "terminal.adjust_cursor_style", default_value := true, stored := none }

/-- The definition of `g_mouse_input`, lines 31-51, without its description. -/
def g_mouse_input : setting_enum :=
  { name := "terminal.mouse_input", options := "off,on,auto", default_value := 2,
    stored := none }

/-! ## The class `shadow_bool` of `lib/matches.h` -/

/-- The data members of `shadow_bool`, lines 51-54. -/
structure shadow_bool where
  m_has_explicit : Bool
  m_explicit : Bool
  m_implicit : Bool
  m_default : Bool
  deriving DecidableEq, Repr

/-- The member `reset`, line 44. -/
def shadow_bool.reset (s : shadow_bool) : shadow_bool :=
  { s with m_has_explicit := false, m_explicit := false, m_implicit := s.m_default }

/-- The constructor, line 39.  `uninit` is the indeterminate content of the object before
the constructor runs. -/
def shadow_bool.ctor (default_value : Bool) (uninit : shadow_bool) : shadow_bool :=
  shadow_bool.reset { uninit with m_default := default_value }

/-- The member `set_explicit`, line 45. -/
def shadow_bool.set_explicit (s : shadow_bool) (value : Bool) : shadow_bool :=
  { s with m_explicit := value, m_has_explicit := true }

/-- The member `set_implicit`, line 46. -/
def shadow_bool.set_implicit (s : shadow_bool) (value : Bool) : shadow_bool :=
  { s with m_implicit := value }

/-- The member `get`, line 47. -/
def shadow_bool.get (s : shadow_bool) : Bool :=
  if s.m_has_explicit then s.m_explicit else s.m_implicit

/-- The member `is_explicit`, line 48. -/
def shadow_bool.is_explicit (s : shadow_bool) : Bool := s.m_has_explicit

/-- A call of one of the mutating members of `shadow_bool`. -/
inductive ShadowOp where
  | reset
  | set_explicit (value : Bool)
  | set_implicit (value : Bool)
  deriving DecidableEq, Repr

/-- The object after one call. -/
def ShadowOp.apply (s : shadow_bool) : ShadowOp → shadow_bool
  | ShadowOp.reset => s.reset
  | ShadowOp.set_explicit v => s.set_explicit v
  | ShadowOp.set_implicit v => s.set_implicit v

/-- The object after a sequence of calls, the oldest first. -/
def shadow_bool.run (s : shadow_bool) (ops : List ShadowOp) : shadow_bool :=
  ops.foldl ShadowOp.apply s

/-- The calls of a sequence that came after its last `reset` (all of them if there is
none), the most recent first. -/
def ShadowOp.sinceReset (ops : List ShadowOp) : List ShadowOp :=
  ops.reverse.takeWhile (fun o => match o with
    | ShadowOp.reset => false
    | _ => true)

/-- The argument of the most recent `set_explicit` since construction or the last `reset`,
if there is one. -/
def ShadowOp.lastExplicit (ops : List ShadowOp) : Option Bool :=
  (ShadowOp.sinceReset ops).findSome? (fun o => match o with
    | ShadowOp.set_explicit v => some v
    | _ => none)

/-- The argument of the most recent `set_implicit` since construction or the last `reset`,
if there is one. -/
def ShadowOp.lastImplicit (ops : List ShadowOp) : Option Bool :=
  (ShadowOp.sinceReset ops).findSome? (fun o => match o with
    | ShadowOp.set_implicit v => some v
    | _ => none)

/-- The value of `get()` as the documentation of `shadow_bool` describes it: the explicit
value if one is set, else the implicit one, else the default. -/
def ShadowOp.expected_get (d : Bool) (ops : List ShadowOp) : Bool :=
  match ShadowOp.lastExplicit ops with
  | some v => v
  | none =>
    match ShadowOp.lastImplicit ops with
    | some v => v
    | none => d

/-- The relation between the two function-local statics of `cursor_style` that the
first-encounter block establishes: the alternate size is 50 if the default size is at least
75 and 100 otherwise. -/
def CursorWorld.coherent (w : CursorWorld) : Prop :=
  w.g_alternate_cursor_size = if 75 ≤ w.g_default_cursor_size then 50 else 100

/-- The style a call of `cursor_style` resolves to, lines 95-98: `true` for enhanced. -/
def cursor_style.resolved (w : CursorWorld) (style : Int) : Bool :=
  if style < 0 then w.g_enhanced_cursor else notNot style

/-- A call `cursor_style(9, 1, -1)` on a handle that is not a console, as the first call of
the process, with the local `ci` holding size 80 and visibility 0 before the read. -/
def exampleFailedRead : CursorWorld × Int :=
  cursor_style (exampleCursorWorld 25 false true) 9 1 (-1) { dwSize := 80, bVisible := 0 }

/-! ## Bit-level lemmas -/

theorem testBit_dwNot (x i : Nat) :
    (dwNot x).testBit i = (decide (i < 32) ^^ x.testBit i) := by
  have h : (0xFFFFFFFF : Nat) = 2 ^ 32 - 1 := by norm_num
  unfold dwNot
  rw [Nat.testBit_xor, h, Nat.testBit_two_pow_sub_one]

theorem testBit_PROCESSED (i : Nat) : ENABLE_PROCESSED_INPUT.testBit i = decide (i = 0) := by
  show Nat.testBit (2 ^ 0) i = _
  rw [Nat.testBit_two_pow]; simp [eq_comm]

theorem testBit_LINE (i : Nat) : ENABLE_LINE_INPUT.testBit i = decide (i = 1) := by
  show Nat.testBit (2 ^ 1) i = _
  rw [Nat.testBit_two_pow]; simp [eq_comm]

theorem testBit_ECHO (i : Nat) : ENABLE_ECHO_INPUT.testBit i = decide (i = 2) := by
  show Nat.testBit (2 ^ 2) i = _
  rw [Nat.testBit_two_pow]; simp [eq_comm]

theorem testBit_WINDOW (i : Nat) : ENABLE_WINDOW_INPUT.testBit i = decide (i = 3) := by
  show Nat.testBit (2 ^ 3) i = _
  rw [Nat.testBit_two_pow]; simp [eq_comm]

theorem testBit_MOUSE (i : Nat) : ENABLE_MOUSE_INPUT.testBit i = decide (i = 4) := by
  show Nat.testBit (2 ^ 4) i = _
  rw [Nat.testBit_two_pow]; simp [eq_comm]

theorem testBit_QUICK_EDIT (i : Nat) : ENABLE_QUICK_EDIT_MODE.testBit i = decide (i = 6) := by
  show Nat.testBit (2 ^ 6) i = _
  rw [Nat.testBit_two_pow]; simp [eq_comm]

/-! ## Lemmas on the console model -/

theorem GetConsoleMode_SetConsoleMode (w : World) (h k : HANDLE) (mode : DWORD) :
    GetConsoleMode (SetConsoleMode w h mode) k =
      if k = h ∧ (w.modes h).isSome then some mode else GetConsoleMode w k := by
  unfold SetConsoleMode GetConsoleMode
  cases hw : w.modes h with
  | none => simp
  | some v =>
    by_cases hk : k = h
    · simp [hk]
    · simp [hk]

theorem ctor_snd (w : World) (handle : HANDLE) (a : Bool) (uninit : DWORD) :
    (console_config.ctor w handle a uninit).2 =
      { m_handle := console_config.resolve_handle w handle
        m_prev_mode := (GetConsoleMode w (console_config.resolve_handle w handle)).getD uninit
        m_prev_accept_mouse_input := w.g_accept_mouse_input } := rfl

theorem ctor_fst (w : World) (handle : HANDLE) (a : Bool) (uninit : DWORD) :
    (console_config.ctor w handle a uninit).1 =
      SetConsoleMode
        { w with
          s_host_input_mode :=
            (GetConsoleMode w (console_config.resolve_handle w handle)).getD uninit
          g_accept_mouse_input := a }
        (console_config.resolve_handle w handle)
        (console_config.working_mode a w.mouse_input w.native
          ((GetConsoleMode w (console_config.resolve_handle w handle)).getD uninit)) := rfl

/-- The input mode of handle `k` after the constructor. -/
theorem GetConsoleMode_ctor (w : World) (handle : HANDLE) (a : Bool) (uninit M : DWORD)
    (hM : GetConsoleMode w (console_config.resolve_handle w handle) = some M) (k : HANDLE) :
    GetConsoleMode (console_config.ctor w handle a uninit).1 k =
      if k = console_config.resolve_handle w handle then
        some (console_config.working_mode a w.mouse_input w.native M)
      else GetConsoleMode w k := by
  rw [ctor_fst, GetConsoleMode_SetConsoleMode, hM]
  have hM' : w.modes (console_config.resolve_handle w handle) = some M := hM
  by_cases hk : k = console_config.resolve_handle w handle
  · simp [hk, hM']
  · simp [hk, GetConsoleMode]

/-- The input mode of handle `k` after the constructor and the destructor. -/
theorem GetConsoleMode_dtor_ctor (w : World) (handle : HANDLE) (a : Bool) (uninit M : DWORD)
    (hM : GetConsoleMode w (console_config.resolve_handle w handle) = some M) (k : HANDLE) :
    GetConsoleMode
      (console_config.dtor (console_config.ctor w handle a uninit).1
        (console_config.ctor w handle a uninit).2) k = GetConsoleMode w k := by
  have h1 := GetConsoleMode_ctor w handle a uninit M hM
  have key : GetConsoleMode
      (SetConsoleMode (console_config.ctor w handle a uninit).1
        (console_config.resolve_handle w handle) M) k = GetConsoleMode w k := by
    rw [GetConsoleMode_SetConsoleMode, h1 k]
    have h2 := h1 (console_config.resolve_handle w handle)
    simp only [GetConsoleMode, if_true] at h2
    by_cases hk : k = console_config.resolve_handle w handle
    · subst hk; simp [h2, hM]
    · simp [hk]
  have e : (console_config.ctor w handle a uninit).2.m_prev_mode = M := by
    rw [ctor_snd, hM]; rfl
  show GetConsoleMode { SetConsoleMode (console_config.ctor w handle a uninit).1
      (console_config.ctor w handle a uninit).2.m_handle
      (console_config.ctor w handle a uninit).2.m_prev_mode with
      g_accept_mouse_input := _ } k = _
  rw [e]
  exact key

/-! ## Scoped console session: round trip -/

/-- C1: for every initial input mode `M` of the console the session works on, every initial
value of `g_accept_mouse_input`, every `accept_mouse_input` argument, mouse setting and host
kind, constructing a `console_config` and destroying it again leaves the input mode of that
console equal to `M`, the input mode of every other handle as it was, and
`g_accept_mouse_input` equal to its initial value. -/
theorem console_config_round_trip (w : World) (handle : HANDLE) (accept_mouse_input : Bool)
    (uninit M : DWORD)
    (hM : GetConsoleMode w (console_config.resolve_handle w handle) = some M) :
    GetConsoleMode
        (console_config.dtor (console_config.ctor w handle accept_mouse_input uninit).1
          (console_config.ctor w handle accept_mouse_input uninit).2)
        (console_config.resolve_handle w handle) = some M ∧
      (∀ k, GetConsoleMode
        (console_config.dtor (console_config.ctor w handle accept_mouse_input uninit).1
          (console_config.ctor w handle accept_mouse_input uninit).2) k = GetConsoleMode w k) ∧
      (console_config.dtor (console_config.ctor w handle accept_mouse_input uninit).1
          (console_config.ctor w handle accept_mouse_input uninit).2).g_accept_mouse_input
        = w.g_accept_mouse_input := by
  refine ⟨?_, ?_, rfl⟩
  · rw [GetConsoleMode_dtor_ctor w handle accept_mouse_input uninit M hM, hM]
  · exact GetConsoleMode_dtor_ctor w handle accept_mouse_input uninit M hM

/-- The round trip of C1 on a console with mode `0x1E7`, the flag initially set, the
session not accepting mouse input. -/
theorem console_config_round_trip_witness :
    GetConsoleMode
        (console_config.dtor
          (console_config.ctor (exampleWorld 0x1E7 true 2 ansi_handler.winterminal) 0 false 0).1
          (console_config.ctor (exampleWorld 0x1E7 true 2 ansi_handler.winterminal) 0 false 0).2)
        3 = some 0x1E7 ∧
      (console_config.dtor
          (console_config.ctor (exampleWorld 0x1E7 true 2 ansi_handler.winterminal) 0 false 0).1
          (console_config.ctor (exampleWorld 0x1E7 true 2 ansi_handler.winterminal) 0 false 0).2
        ).g_accept_mouse_input = true :=
  have h := console_config_round_trip (exampleWorld 0x1E7 true 2 ansi_handler.winterminal)
    0 false 0 0x1E7 rfl
  ⟨h.1, h.2.2⟩

/-! ## Mouse policy resolver -/

theorem and_two_pow_of_testBit (W k : Nat) (h : W.testBit k = true) : W &&& 2 ^ k = 2 ^ k := by
  apply Nat.eq_of_testBit_eq
  intro i
  rw [Nat.testBit_and, Nat.testBit_two_pow]
  by_cases hk : k = i
  · subst hk; simp [h]
  · simp [hk]

theorem and_two_pow_of_not_testBit (W k : Nat) (h : W.testBit k = false) : W &&& 2 ^ k = 0 := by
  apply Nat.eq_of_testBit_eq
  intro i
  rw [Nat.testBit_and, Nat.testBit_two_pow]
  by_cases hk : k = i
  · subst hk; simp [h]
  · simp [hk]

/-- With the accept flag set, `select_mouse_input` changes no bit other than mouse-input
and quick-edit. -/
theorem select_mouse_input_frame (s : Int) (h : ansi_handler) (m : DWORD) (i : Nat)
    (h4 : i ≠ 4) (h6 : i ≠ 6) (h32 : i < 32) :
    (select_mouse_input true s h m).testBit i = m.testBit i := by
  unfold select_mouse_input
  simp only [Bool.not_true, Bool.false_eq_true, if_false]
  split
  · split
    · simp [testBit_MOUSE, h4]
    · simp [testBit_dwNot, testBit_MOUSE, testBit_QUICK_EDIT, h4, h6, h32]
  · split
    · simp [testBit_MOUSE, h4]
    · split
      · simp
      · simp [testBit_MOUSE, h4]
  · rfl

/-- The bits of the mode the constructor computes before it calls `select_mouse_input`. -/
theorem testBit_pre_mode (M i : Nat) :
    ((M &&& dwNot (ENABLE_PROCESSED_INPUT ||| ENABLE_LINE_INPUT ||| ENABLE_ECHO_INPUT |||
      ENABLE_MOUSE_INPUT)) ||| ENABLE_WINDOW_INPUT).testBit i =
    (decide (i = 3) || (M.testBit i && decide (i < 32) &&
      !(decide (i = 0) || decide (i = 1) || decide (i = 2) || decide (i = 4)))) := by
  simp only [Nat.testBit_or, Nat.testBit_and, testBit_dwNot, testBit_PROCESSED,
    testBit_LINE, testBit_ECHO, testBit_MOUSE, testBit_WINDOW]
  by_cases h32 : i < 32
  · simp [h32, Bool.or_comm]
  · have h0 : i ≠ 0 := by omega
    have h1 : i ≠ 1 := by omega
    have h2 : i ≠ 2 := by omega
    have h4 : i ≠ 4 := by omega
    simp [h32, h0, h1, h2, h4]

/-- With the accept flag set, the working mode has window-input set. -/
theorem working_mode_testBit_3 (s : Int) (h : ansi_handler) (M : DWORD) :
    (console_config.working_mode true s h M).testBit 3 = true := by
  unfold console_config.working_mode
  rw [select_mouse_input_frame s h _ 3 (by decide) (by decide) (by decide), testBit_pre_mode]
  simp

/-- With the accept flag set, the working mode has processed-input, line-input and
echo-input clear. -/
theorem working_mode_testBit_low (s : Int) (h : ansi_handler) (M : DWORD) (i : Nat)
    (hi : i < 3) : (console_config.working_mode true s h M).testBit i = false := by
  unfold console_config.working_mode
  rw [select_mouse_input_frame s h _ i (by omega) (by omega) (by omega), testBit_pre_mode]
  have h3 : i ≠ 3 := by omega
  interval_cases i <;> simp

/-- With the accept flag set, the working mode agrees with the initial mode on every bit
below position 32 that is not managed. -/
theorem working_mode_testBit_frame (s : Int) (h : ansi_handler) (M : DWORD) (i : Nat)
    (h32 : i < 32) (h0 : i ≠ 0) (h1 : i ≠ 1) (h2 : i ≠ 2) (h3 : i ≠ 3) (h4 : i ≠ 4)
    (h6 : i ≠ 6) : (console_config.working_mode true s h M).testBit i = M.testBit i := by
  unfold console_config.working_mode
  rw [select_mouse_input_frame s h _ i h4 h6 h32, testBit_pre_mode]
  simp [h0, h1, h2, h3, h4, h32]

theorem testBit_managedBits (i : Nat) :
    managedBits.testBit i = (decide (i = 0) || decide (i = 1) || decide (i = 2) ||
      decide (i = 4) || decide (i = 3) || decide (i = 6)) := by
  simp only [managedBits, Nat.testBit_or, testBit_PROCESSED, testBit_LINE, testBit_ECHO,
    testBit_MOUSE, testBit_WINDOW, testBit_QUICK_EDIT]

/-- C2: the code does not return the mode unchanged when `g_accept_mouse_input` is false: for
every setting, host and mode `select_mouse_input` returns `0`; for the mode
`{window-input, quick-edit}` (`0x48`), which the constructor of `console_config` passes
for a console in quick-edit mode, this differs from the mode. -/
theorem select_mouse_input_not_accepting :
    (∀ (s : Int) (h : ansi_handler) (m : DWORD), select_mouse_input false s h m = 0) ∧
      select_mouse_input false 0 ansi_handler.winconsole
        (ENABLE_WINDOW_INPUT ||| ENABLE_QUICK_EDIT_MODE)
        ≠ ENABLE_WINDOW_INPUT ||| ENABLE_QUICK_EDIT_MODE := by
  refine ⟨fun s h m => rfl, ?_⟩
  decide

/-- C3: with the accept flag set, for every mode `m` and host `h`: setting off (`0`) returns
`m`; setting on (`1`) returns `m | MOUSE_INPUT` on ConEmu, where the quick-edit bit stays as
in `m`, and `(m & ~QUICK_EDIT) | MOUSE_INPUT` on every other host; setting auto (`2`) returns
`m | MOUSE_INPUT` on ConEmu and, on every other host, `m | MOUSE_INPUT` if quick-edit is
clear in `m` and `m` otherwise.  The five concrete rows of the table follow. -/
theorem select_mouse_input_table :
    (∀ (m : DWORD) (h : ansi_handler),
      select_mouse_input true 0 h m = m ∧
      select_mouse_input true 1 h m =
        (if h = ansi_handler.conemu then m ||| ENABLE_MOUSE_INPUT
         else (m &&& dwNot ENABLE_QUICK_EDIT_MODE) ||| ENABLE_MOUSE_INPUT) ∧
      select_mouse_input true 1 ansi_handler.conemu m &&& ENABLE_QUICK_EDIT_MODE =
        m &&& ENABLE_QUICK_EDIT_MODE ∧
      select_mouse_input true 2 h m =
        (if h = ansi_handler.conemu then m ||| ENABLE_MOUSE_INPUT
         else if m &&& ENABLE_QUICK_EDIT_MODE = 0 then m ||| ENABLE_MOUSE_INPUT else m)) ∧
      select_mouse_input true 0 ansi_handler.winconsole ENABLE_QUICK_EDIT_MODE
        = ENABLE_QUICK_EDIT_MODE ∧
      select_mouse_input true 1 ansi_handler.winconsole ENABLE_QUICK_EDIT_MODE
        = ENABLE_MOUSE_INPUT ∧
      select_mouse_input true 1 ansi_handler.conemu ENABLE_QUICK_EDIT_MODE
        = ENABLE_QUICK_EDIT_MODE ||| ENABLE_MOUSE_INPUT ∧
      select_mouse_input true 2 ansi_handler.winconsole ENABLE_QUICK_EDIT_MODE
        = ENABLE_QUICK_EDIT_MODE ∧
      select_mouse_input true 2 ansi_handler.winconsole 0 = ENABLE_MOUSE_INPUT := by
  refine ⟨fun m h => ⟨rfl, ?_, ?_, ?_⟩, by decide, by decide, by decide, by decide, by decide⟩
  · cases h <;> rfl
  · apply Nat.eq_of_testBit_eq
    intro i
    show ((m ||| ENABLE_MOUSE_INPUT) &&& ENABLE_QUICK_EDIT_MODE).testBit i = _
    simp only [Nat.testBit_and, Nat.testBit_or, testBit_MOUSE, testBit_QUICK_EDIT]
    by_cases h6 : i = 6
    · subst h6; simp
    · simp [h6]
  · cases h
    · show m ||| (if m &&& ENABLE_QUICK_EDIT_MODE ≠ 0 then 0 else ENABLE_MOUSE_INPUT) = _
      by_cases hq : m &&& ENABLE_QUICK_EDIT_MODE = 0
      · simp [hq]
      · simp [hq]
    · rfl
    · show m ||| (if m &&& ENABLE_QUICK_EDIT_MODE ≠ 0 then 0 else ENABLE_MOUSE_INPUT) = _
      by_cases hq : m &&& ENABLE_QUICK_EDIT_MODE = 0
      · simp [hq]
      · simp [hq]

/-! ## Scoped console session: the working mode -/

/-- C4: when the session accepts mouse input the working mode has window-input set and
processed-input, line-input and echo-input clear, for every setting, host and initial
mode; when it does not, the working mode is `0` for every setting, host and initial mode,
so that window-input is not set: on a console with mode `0` the constructor called with
`accept_mouse_input = false` applies the mode `0`. -/
theorem working_mode_window_input :
    (∀ (s : Int) (h : ansi_handler) (M : DWORD),
      console_config.working_mode true s h M &&& ENABLE_WINDOW_INPUT = ENABLE_WINDOW_INPUT ∧
      console_config.working_mode true s h M &&& ENABLE_PROCESSED_INPUT = 0 ∧
      console_config.working_mode true s h M &&& ENABLE_LINE_INPUT = 0 ∧
      console_config.working_mode true s h M &&& ENABLE_ECHO_INPUT = 0) ∧
    (∀ (s : Int) (h : ansi_handler) (M : DWORD),
      console_config.working_mode false s h M = 0) ∧
    GetConsoleMode
      (console_config.ctor (exampleWorld 0 false 0 ansi_handler.winconsole) 0 false 0).1 3
        = some 0 ∧
    0 &&& ENABLE_WINDOW_INPUT ≠ ENABLE_WINDOW_INPUT := by
  refine ⟨fun s h M => ⟨?_, ?_, ?_, ?_⟩, fun s h M => rfl, by decide, by decide⟩
  · exact and_two_pow_of_testBit _ 3 (working_mode_testBit_3 s h M)
  · exact and_two_pow_of_not_testBit _ 0 (working_mode_testBit_low s h M 0 (by decide))
  · exact and_two_pow_of_not_testBit _ 1 (working_mode_testBit_low s h M 1 (by decide))
  · exact and_two_pow_of_not_testBit _ 2 (working_mode_testBit_low s h M 2 (by decide))

/-- C5: when the session accepts mouse input the working mode agrees with the initial mode
on every bit outside the managed set, for every setting, host and initial mode; when it
does not, the working mode is `0` and the unmanaged bits of the initial mode are lost: on a
console with mode `0x1A0` (insert mode, extended flags, auto position) the constructor
called with `accept_mouse_input = false` applies the mode `0`. -/
theorem working_mode_unmanaged_bits :
    (∀ (s : Int) (h : ansi_handler) (M : DWORD),
      console_config.working_mode true s h M &&& dwNot managedBits
        = M &&& dwNot managedBits) ∧
    GetConsoleMode
      (console_config.ctor (exampleWorld 0x1A0 false 0 ansi_handler.winconsole) 0 false 0).1 3
        = some 0 ∧
    0 &&& dwNot managedBits ≠ 0x1A0 &&& dwNot managedBits := by
  refine ⟨fun s h M => ?_, by decide, by decide⟩
  apply Nat.eq_of_testBit_eq
  intro i
  simp only [Nat.testBit_and, testBit_dwNot, testBit_managedBits]
  by_cases h32 : i < 32
  · by_cases h0 : i = 0
    · simp [h0]
    by_cases h1 : i = 1
    · simp [h1]
    by_cases h2 : i = 2
    · simp [h2]
    by_cases h3 : i = 3
    · simp [h3]
    by_cases h4 : i = 4
    · simp [h4]
    by_cases h6 : i = 6
    · simp [h6]
    rw [working_mode_testBit_frame s h M i h32 h0 h1 h2 h3 h4 h6]
  · have h0 : i ≠ 0 := by omega
    have h1 : i ≠ 1 := by omega
    have h2 : i ≠ 2 := by omega
    have h3 : i ≠ 3 := by omega
    have h4 : i ≠ 4 := by omega
    have h6 : i ≠ 6 := by omega
    simp [h32, h0, h1, h2, h3, h4, h6]

/-- The working mode for setting on and a host other than ConEmu. -/
theorem working_mode_on_legacy (h : ansi_handler) (hh : h ≠ ansi_handler.conemu)
    (M : DWORD) :
    console_config.working_mode true 1 h M =
      (M &&& dwNot (ENABLE_PROCESSED_INPUT ||| ENABLE_LINE_INPUT ||| ENABLE_ECHO_INPUT |||
        ENABLE_QUICK_EDIT_MODE)) ||| (ENABLE_WINDOW_INPUT ||| ENABLE_MOUSE_INPUT) := by
  have e : ∀ m, select_mouse_input true 1 h m =
      (m &&& dwNot ENABLE_QUICK_EDIT_MODE) ||| ENABLE_MOUSE_INPUT := by
    intro m
    cases h
    · rfl
    · exact absurd rfl hh
    · rfl
  unfold console_config.working_mode
  rw [e]
  apply Nat.eq_of_testBit_eq
  intro i
  simp only [Nat.testBit_or, Nat.testBit_and, testBit_dwNot, testBit_PROCESSED,
    testBit_LINE, testBit_ECHO, testBit_MOUSE, testBit_WINDOW, testBit_QUICK_EDIT]
  by_cases h32 : i < 32
  · by_cases h0 : i = 0
    · simp [h0]
    by_cases h1 : i = 1
    · simp [h1]
    by_cases h2 : i = 2
    · simp [h2]
    by_cases h3 : i = 3
    · simp [h3]
    by_cases h4 : i = 4
    · simp [h4]
    by_cases h6 : i = 6
    · simp [h6]
    simp [h32, h0, h1, h2, h3, h4, h6]
  · have h0 : i ≠ 0 := by omega
    have h1 : i ≠ 1 := by omega
    have h2 : i ≠ 2 := by omega
    have h3 : i ≠ 3 := by omega
    have h4 : i ≠ 4 := by omega
    have h6 : i ≠ 6 := by omega
    simp [h32, h0, h1, h2, h3, h4, h6]

/-- C6: with `accept_mouse_input = true`, the mouse setting on and a host other than
ConEmu, the constructor of `console_config` applies to a console with initial mode `M` the
mode `M` with processed-input, line-input, echo-input and quick-edit cleared and
window-input and mouse-input set, and the destructor sets the mode to `M` again. -/
theorem console_config_on_legacy (w : World) (handle : HANDLE) (uninit M : DWORD)
    (hM : GetConsoleMode w (console_config.resolve_handle w handle) = some M)
    (hs : w.mouse_input = 1) (hh : w.native ≠ ansi_handler.conemu) :
    GetConsoleMode (console_config.ctor w handle true uninit).1
        (console_config.resolve_handle w handle) =
      some ((M &&& dwNot (ENABLE_PROCESSED_INPUT ||| ENABLE_LINE_INPUT |||
        ENABLE_ECHO_INPUT ||| ENABLE_QUICK_EDIT_MODE)) |||
          (ENABLE_WINDOW_INPUT ||| ENABLE_MOUSE_INPUT)) ∧
    GetConsoleMode
        (console_config.dtor (console_config.ctor w handle true uninit).1
          (console_config.ctor w handle true uninit).2)
        (console_config.resolve_handle w handle) = some M := by
  constructor
  · rw [GetConsoleMode_ctor w handle true uninit M hM, if_pos rfl, hs,
      working_mode_on_legacy w.native hh M]
  · rw [GetConsoleMode_dtor_ctor w handle true uninit M hM, hM]

/-- The end-to-end scenario of C6: from the mode `{processed, line, echo, quick-edit}`
(`0x47`) on a legacy console the working mode is `{window-input, mouse-input}` (`0x18`),
and after release the mode is `0x47` again. -/
theorem console_config_on_legacy_witness :
    GetConsoleMode
        (console_config.ctor (exampleWorld 0x47 false 1 ansi_handler.winconsole) 0 true 0).1 3
      = some 0x18 ∧
    GetConsoleMode
        (console_config.dtor
          (console_config.ctor (exampleWorld 0x47 false 1 ansi_handler.winconsole) 0 true 0).1
          (console_config.ctor (exampleWorld 0x47 false 1 ansi_handler.winconsole) 0 true 0).2)
        3 = some 0x47 :=
  console_config_on_legacy (exampleWorld 0x47 false 1 ansi_handler.winconsole) 0 0 0x47
    rfl rfl (by decide)

/-! ## Scoped printer session -/

/-- C7, as stated, fails: with the printer at address `1` active, the constructor of a
second `printer_context` on the terminal at address `7` fails its assertion in a state
whose trace holds the hooks `open` and `begin` of that terminal, so that it is not true
that no hook has run when the violation is detected. -/
theorem printer_context_second_session_hooks_ran :
    (printer_context.ctor examplePrinterWorld 7 2).state.trace =
        [(7, Hook.hook_open), (7, Hook.hook_begin)] ∧
      ¬ ((printer_context.ctor examplePrinterWorld 7 2).failed = true ∧
          (printer_context.ctor examplePrinterWorld 7 2).state.trace
            = examplePrinterWorld.trace) := by
  decide

/-- C7, amended: whenever a printer is active, the constructor of a second
`printer_context` fails its assertion after the hooks `open` and `begin` of the second
session's terminal have run, in this order, and before `g_printer` is overwritten. -/
theorem printer_context_second_session (w : PrinterWorld) (terminal printer : Nat)
    (hactive : w.g_printer ≠ 0) :
    printer_context.ctor w terminal printer =
      Outcome.assertion_failed
        { g_printer := w.g_printer
          trace := w.trace ++ [(terminal, Hook.hook_open), (terminal, Hook.hook_begin)] } := by
  unfold printer_context.ctor terminal_call
  simp [hactive]

/-- The amended C7 on the state with the printer at address `1` active. -/
theorem printer_context_second_session_witness :
    printer_context.ctor examplePrinterWorld 7 2 =
      Outcome.assertion_failed
        { g_printer := 1, trace := [(7, Hook.hook_open), (7, Hook.hook_begin)] } :=
  printer_context_second_session examplePrinterWorld 7 2 (by decide)

/-! ## Cursor lock -/

/-- C8: the assertion of `lock_cursor` fails exactly when `lock` is non-zero and the gate
is set.  From the unlocked state `lock_cursor(1)` returns and a second `lock_cursor(1)`
right after it fails; `lock_cursor(0)` never fails, and no call fails in the unlocked
state. -/
theorem lock_cursor_assertion :
    (∀ (w : CursorWorld) (lock : Int),
      (lock_cursor w lock).failed = true ↔
        (lock ≠ 0 ∧ w.s_locked_cursor_visibility = true)) ∧
    (∀ w : CursorWorld,
      (lock_cursor { w with s_locked_cursor_visibility := false } 1).failed = false ∧
      (lock_cursor (lock_cursor { w with s_locked_cursor_visibility := false } 1).state
        1).failed = true) ∧
    (∀ w : CursorWorld, (lock_cursor w 0).failed = false) ∧
    (∀ (w : CursorWorld) (lock : Int),
      (lock_cursor { w with s_locked_cursor_visibility := false } lock).failed = false) := by
  refine ⟨?_, ?_, ?_, ?_⟩
  · intro w lock
    unfold lock_cursor notNot
    by_cases hl : lock = 0 <;> cases hw : w.s_locked_cursor_visibility <;>
      simp [Outcome.failed, hl]
  · intro w
    exact ⟨rfl, rfl⟩
  · intro w
    rfl
  · intro w lock
    unfold lock_cursor
    simp [Outcome.failed]

/-- C9: a call `lock_cursor(lock)` that does not lock while the gate is set returns the
value the gate had before the call (as `is_locked_cursor` reports it), and afterwards
`is_locked_cursor` is `1` if `lock` is non-zero and `0` if it is zero; every non-zero
`lock` has the effect of `1`. -/
theorem lock_cursor_legal (w : CursorWorld) (lock : Int)
    (hlegal : lock = 0 ∨ w.s_locked_cursor_visibility = false) :
    (lock_cursor w lock).failed = false ∧
      (lock_cursor w lock).value = some (is_locked_cursor w) ∧
      is_locked_cursor (lock_cursor w lock).state = (if lock ≠ 0 then 1 else 0) ∧
      (lock ≠ 0 → lock_cursor w lock = lock_cursor w 1) := by
  unfold lock_cursor notNot is_locked_cursor boolToInt
  rcases hlegal with hl | hw
  · subst hl
    simp [Outcome.failed, Outcome.value, Outcome.state]
  · by_cases hl : lock = 0
    · subst hl
      simp [Outcome.failed, Outcome.value, Outcome.state]
    · simp [Outcome.failed, Outcome.value, Outcome.state, hw, hl]

/-- C9 on the unlocked state with `lock = 5`: the call returns `0` and the gate is set. -/
theorem lock_cursor_legal_witness :
    (lock_cursor (exampleCursorWorld 25 false true) 5).value = some 0 ∧
      is_locked_cursor (lock_cursor (exampleCursorWorld 25 false true) 5).state = 1 :=
  have h := lock_cursor_legal (exampleCursorWorld 25 false true) 5 (Or.inr rfl)
  ⟨h.2.1, h.2.2.1⟩

/-! ## Cursor style: the cached default size -/

theorem toInt32_of_lt (n : Nat) (h : n < 2 ^ 31) : toInt32 n = (n : Int) := by
  unfold toInt32
  have h1 : n % 2 ^ 32 = n := Nat.mod_eq_of_lt (by omega)
  rw [h1, if_pos h]

theorem SetConsoleCursorInfo_default (w : CursorWorld) (h : HANDLE)
    (ci : CONSOLE_CURSOR_INFO) :
    (SetConsoleCursorInfo w h ci).g_default_cursor_size = w.g_default_cursor_size := by
  unfold SetConsoleCursorInfo
  cases w.cursors h <;> rfl

theorem SetConsoleCursorInfo_alternate (w : CursorWorld) (h : HANDLE)
    (ci : CONSOLE_CURSOR_INFO) :
    (SetConsoleCursorInfo w h ci).g_alternate_cursor_size = w.g_alternate_cursor_size := by
  unfold SetConsoleCursorInfo
  cases w.cursors h <;> rfl

/-- The function `cursor_style` changes its function-local statics in the first-encounter
block only. -/
theorem cursor_style_statics (w : CursorWorld) (handle : HANDLE) (style visible : Int)
    (uninit : CONSOLE_CURSOR_INFO) :
    (cursor_style w handle style visible uninit).1.g_default_cursor_size =
        (cursor_style.capture w ((GetConsoleCursorInfo w
          (if handle = 0 then w.stdout else handle)).getD uninit)).g_default_cursor_size ∧
      (cursor_style w handle style visible uninit).1.g_alternate_cursor_size =
        (cursor_style.capture w ((GetConsoleCursorInfo w
          (if handle = 0 then w.stdout else handle)).getD uninit)).g_alternate_cursor_size := by
  unfold cursor_style
  simp only []
  generalize (if handle = 0 then w.stdout else handle) = hd
  generalize (GetConsoleCursorInfo w hd).getD uninit = ci
  by_cases h1 : (decide (is_locked_cursor (cursor_style.capture w ci) ≠ 0) ||
      !(cursor_style.capture w ci).adjust_cursor_style) = true
  · rw [if_pos h1]
    exact ⟨rfl, rfl⟩
  · rw [if_neg h1]
    by_cases h2 : (decide (style < 0) && decide (visible < 0)) = true
    · rw [if_pos h2]
      exact ⟨rfl, rfl⟩
    · rw [if_neg h2]
      constructor
      · rw [SetConsoleCursorInfo_default]
        by_cases h3 : style < 0
        · rw [if_pos h3]
        · rw [if_neg h3]
      · rw [SetConsoleCursorInfo_alternate]
        by_cases h3 : style < 0
        · rw [if_pos h3]
        · rw [if_neg h3]

/-- The first-encounter block does nothing once a non-negative default size is cached. -/
theorem capture_of_nonneg (w : CursorWorld) (ci : CONSOLE_CURSOR_INFO)
    (h : 0 ≤ w.g_default_cursor_size) : cursor_style.capture w ci = w := by
  unfold cursor_style.capture
  rw [if_neg (by omega)]

/-- The statics after the first-encounter block has run on fresh statics. -/
theorem capture_of_fresh (w : CursorWorld) (ci : CONSOLE_CURSOR_INFO) (h : w.fresh) :
    (cursor_style.capture w ci).g_default_cursor_size = toInt32 ci.dwSize ∧
      (cursor_style.capture w ci).g_alternate_cursor_size =
        (if 75 ≤ toInt32 ci.dwSize then 50 else 100) := by
  obtain ⟨hd, ha⟩ := h
  unfold cursor_style.capture
  rw [if_pos (by omega)]
  simp only []
  by_cases h75 : 75 ≤ toInt32 ci.dwSize
  · simp [h75]
  · simp [h75, ha]

/-- A call of a run reads the statics the previous call left and changes them in the
first-encounter block only. -/
theorem exec_statics (w : CursorWorld) (c : CursorCall) :
    (CursorCall.exec w c).g_default_cursor_size =
        (cursor_style.capture (c.enter w) c.observed).g_default_cursor_size ∧
      (CursorCall.exec w c).g_alternate_cursor_size =
        (cursor_style.capture (c.enter w) c.observed).g_alternate_cursor_size :=
  cursor_style_statics (c.enter w) c.handle c.style c.visible c.uninit

/-- Once a non-negative default size is cached, no sequence of calls changes the statics. -/
theorem run_statics_of_nonneg (cs : List CursorCall) (w : CursorWorld)
    (h : 0 ≤ w.g_default_cursor_size) :
    (CursorCall.run w cs).g_default_cursor_size = w.g_default_cursor_size ∧
      (CursorCall.run w cs).g_alternate_cursor_size = w.g_alternate_cursor_size := by
  induction cs generalizing w with
  | nil => exact ⟨rfl, rfl⟩
  | cons c cs ih =>
    have he := exec_statics w c
    have hc : cursor_style.capture (c.enter w) c.observed = c.enter w :=
      capture_of_nonneg _ _ h
    rw [hc] at he
    have hd : (CursorCall.exec w c).g_default_cursor_size = w.g_default_cursor_size := he.1
    have ha : (CursorCall.exec w c).g_alternate_cursor_size = w.g_alternate_cursor_size :=
      he.2
    have h2 := ih (CursorCall.exec w c) (by rw [hd]; exact h)
    show (CursorCall.run (CursorCall.exec w c) cs).g_default_cursor_size = _ ∧
      (CursorCall.run (CursorCall.exec w c) cs).g_alternate_cursor_size = _
    rw [h2.1, h2.2, hd, ha]
    exact ⟨rfl, rfl⟩

/-- C10: in a run that starts with fresh statics and whose first call observes a cursor
size that is non-negative as an `int` (below `2 ^ 31`, as every percentage is), the first
call caches the size it observes as the default size and derives the alternate size from
it (50 if the default is at least 75, else 100); after any sequence of later calls, with
any arguments, lock state, setting value and host-reported sizes, both cached sizes are
what the first call left. -/
theorem cursor_style_default_size_capture (w0 : CursorWorld) (c : CursorCall)
    (cs : List CursorCall) (h0 : w0.fresh) (hsz : c.observed.dwSize < 2 ^ 31) :
    (CursorCall.exec w0 c).g_default_cursor_size = (c.observed.dwSize : Int) ∧
      (CursorCall.exec w0 c).g_alternate_cursor_size =
        (if 75 ≤ c.observed.dwSize then 50 else 100) ∧
      (CursorCall.run (CursorCall.exec w0 c) cs).g_default_cursor_size =
        (c.observed.dwSize : Int) ∧
      (CursorCall.run (CursorCall.exec w0 c) cs).g_alternate_cursor_size =
        (CursorCall.exec w0 c).g_alternate_cursor_size := by
  have he := exec_statics w0 c
  have hf : (c.enter w0).fresh := h0
  have hc := capture_of_fresh (c.enter w0) c.observed hf
  rw [toInt32_of_lt _ hsz] at hc
  have hd : (CursorCall.exec w0 c).g_default_cursor_size = (c.observed.dwSize : Int) := by
    rw [he.1, hc.1]
  have hr := run_statics_of_nonneg cs (CursorCall.exec w0 c) (by rw [hd]; omega)
  refine ⟨hd, ?_, ?_, hr.2⟩
  · rw [he.2, hc.2]
    by_cases h75 : 75 ≤ c.observed.dwSize
    · have : (75 : Int) ≤ (c.observed.dwSize : Int) := by exact_mod_cast h75
      simp [h75, this]
    · have : ¬ (75 : Int) ≤ (c.observed.dwSize : Int) := by exact_mod_cast h75
      simp [h75, this]
  · rw [hr.1, hd]

/-- C10 on a run of three calls in which the host reports the sizes 80, 25 and 100: the
cached default size stays 80 and the alternate size 50. -/
theorem cursor_style_default_size_capture_witness :
    (CursorCall.run
        (CursorCall.exec (exampleCursorWorld 80 false true) (exampleCall 80 false true 1 1))
        [exampleCall 25 false true 0 (-1), exampleCall 100 true false (-1) 0]
      ).g_default_cursor_size = 80 ∧
    (CursorCall.run
        (CursorCall.exec (exampleCursorWorld 80 false true) (exampleCall 80 false true 1 1))
        [exampleCall 25 false true 0 (-1), exampleCall 100 true false (-1) 0]
      ).g_alternate_cursor_size = 50 :=
  have h := cursor_style_default_size_capture (exampleCursorWorld 80 false true)
    (exampleCall 80 false true 1 1)
    [exampleCall 25 false true 0 (-1), exampleCall 100 true false (-1) 0]
    ⟨rfl, rfl⟩ (by decide)
  ⟨h.2.2.1, h.2.2.2.trans h.2.1⟩

/-! ## Cursor style: the effect of a call -/

theorem capture_fields (w : CursorWorld) (ci : CONSOLE_CURSOR_INFO) :
    (cursor_style.capture w ci).cursors = w.cursors ∧
      (cursor_style.capture w ci).stdout = w.stdout ∧
      (cursor_style.capture w ci).adjust_cursor_style = w.adjust_cursor_style ∧
      (cursor_style.capture w ci).g_enhanced_cursor = w.g_enhanced_cursor ∧
      (cursor_style.capture w ci).s_locked_cursor_visibility
        = w.s_locked_cursor_visibility := by
  unfold cursor_style.capture
  by_cases h : w.g_default_cursor_size < 0
  · rw [if_pos h]
    simp only []
    by_cases h2 : toInt32 ci.dwSize ≥ 75
    · rw [if_pos h2]
      exact ⟨rfl, rfl, rfl, rfl, rfl⟩
    · rw [if_neg h2]
      exact ⟨rfl, rfl, rfl, rfl, rfl⟩
  · rw [if_neg h]
    exact ⟨rfl, rfl, rfl, rfl, rfl⟩

/-- The first-encounter block keeps the relation between the statics. -/
theorem capture_coherent (w : CursorWorld) (ci : CONSOLE_CURSOR_INFO) (h : w.coherent) :
    (cursor_style.capture w ci).coherent := by
  unfold CursorWorld.coherent at h ⊢
  unfold cursor_style.capture
  by_cases hneg : w.g_default_cursor_size < 0
  · rw [if_pos hneg]
    have ha : w.g_alternate_cursor_size = 100 := by
      rw [h, if_neg (by omega)]
    simp only []
    by_cases h2 : toInt32 ci.dwSize ≥ 75
    · rw [if_pos h2]
      show (50 : Int) = if 75 ≤ toInt32 ci.dwSize then 50 else 100
      rw [if_pos h2]
    · rw [if_neg h2]
      show w.g_alternate_cursor_size = if 75 ≤ toInt32 ci.dwSize then 50 else 100
      rw [if_neg h2, ha]
  · rw [if_neg hneg]
    exact h

theorem fresh_coherent (w : CursorWorld) (h : w.fresh) : w.coherent := by
  obtain ⟨hd, ha⟩ := h
  unfold CursorWorld.coherent
  rw [ha, hd]
  rfl

/-- Every call of a run keeps the relation between the statics. -/
theorem exec_coherent (w : CursorWorld) (c : CursorCall) (h : w.coherent) :
    (CursorCall.exec w c).coherent := by
  have he := exec_statics w c
  have hc : (c.enter w).coherent := h
  have h2 := capture_coherent (c.enter w) c.observed hc
  unfold CursorWorld.coherent at h2 ⊢
  rw [he.1, he.2]
  exact h2

theorem run_coherent (cs : List CursorCall) (w : CursorWorld) (h : w.coherent) :
    (CursorCall.run w cs).coherent := by
  induction cs generalizing w with
  | nil => exact h
  | cons c cs ih => exact ih (CursorCall.exec w c) (exec_coherent w c h)

theorem GetConsoleCursorInfo_SetConsoleCursorInfo (w : CursorWorld) (h k : HANDLE)
    (ci : CONSOLE_CURSOR_INFO) :
    GetConsoleCursorInfo (SetConsoleCursorInfo w h ci) k =
      if k = h ∧ (w.cursors h).isSome then some ci else GetConsoleCursorInfo w k := by
  unfold SetConsoleCursorInfo GetConsoleCursorInfo
  cases hw : w.cursors h with
  | none => simp
  | some v =>
    by_cases hk : k = h
    · simp [hk]
    · simp [hk]

theorem SetConsoleCursorInfo_enhanced (w : CursorWorld) (h : HANDLE)
    (ci : CONSOLE_CURSOR_INFO) :
    (SetConsoleCursorInfo w h ci).g_enhanced_cursor = w.g_enhanced_cursor := by
  unfold SetConsoleCursorInfo
  cases w.cursors h <;> rfl

/-- The value `cursor_style` returns, on every path. -/
theorem cursor_style_snd (w : CursorWorld) (handle : HANDLE) (style visible : Int)
    (uninit : CONSOLE_CURSOR_INFO) :
    (cursor_style w handle style visible uninit).2 =
      boolToInt (notNot ((GetConsoleCursorInfo w
        (if handle = 0 then w.stdout else handle)).getD uninit).bVisible) := by
  unfold cursor_style
  simp only []
  generalize (if handle = 0 then w.stdout else handle) = hd
  generalize (GetConsoleCursorInfo w hd).getD uninit = ci
  by_cases h1 : (decide (is_locked_cursor (cursor_style.capture w ci) ≠ 0) ||
      !(cursor_style.capture w ci).adjust_cursor_style) = true
  · rw [if_pos h1]
  · rw [if_neg h1]
    by_cases h2 : (decide (style < 0) && decide (visible < 0)) = true
    · rw [if_pos h2]
    · rw [if_neg h2]

/-- The state after `cursor_style` on the path that reaches `SetConsoleCursorInfo`. -/
theorem cursor_style_fst_of_effective (w : CursorWorld) (handle : HANDLE)
    (style visible : Int) (uninit : CONSOLE_CURSOR_INFO)
    (hlock : w.s_locked_cursor_visibility = false) (hadj : w.adjust_cursor_style = true)
    (hspec : 0 ≤ style ∨ 0 ≤ visible) :
    (cursor_style w handle style visible uninit).1 =
      SetConsoleCursorInfo
        (if style < 0 then cursor_style.capture w ((GetConsoleCursorInfo w
            (if handle = 0 then w.stdout else handle)).getD uninit)
          else { cursor_style.capture w ((GetConsoleCursorInfo w
            (if handle = 0 then w.stdout else handle)).getD uninit) with
            g_enhanced_cursor := notNot style })
        (if handle = 0 then w.stdout else handle)
        { dwSize := toDWORD (if cursor_style.resolved w style
            then (cursor_style.capture w ((GetConsoleCursorInfo w
              (if handle = 0 then w.stdout else handle)).getD uninit)).g_alternate_cursor_size
            else (cursor_style.capture w ((GetConsoleCursorInfo w
              (if handle = 0 then w.stdout else handle)).getD uninit)).g_default_cursor_size)
          bVisible := if 0 ≤ visible then boolToInt (notNot visible)
            else ((GetConsoleCursorInfo w
              (if handle = 0 then w.stdout else handle)).getD uninit).bVisible } := by
  unfold cursor_style
  simp only []
  generalize (if handle = 0 then w.stdout else handle) = hd
  generalize (GetConsoleCursorInfo w hd).getD uninit = ci
  obtain ⟨-, -, hadj1, henh1, hlock1⟩ := capture_fields w ci
  have h1 : ¬ (decide (is_locked_cursor (cursor_style.capture w ci) ≠ 0) ||
      !(cursor_style.capture w ci).adjust_cursor_style) = true := by
    unfold is_locked_cursor boolToInt
    rw [hadj1, hlock1, hlock, hadj]
    simp
  have h2 : ¬ (decide (style < 0) && decide (visible < 0)) = true := by
    simp only [Bool.and_eq_true, decide_eq_true_eq]
    omega
  rw [if_neg h1, if_neg h2]
  simp only []
  unfold cursor_style.resolved
  by_cases hs : style < 0
  · simp only [if_pos hs]
    rw [henh1]
    by_cases hv : 0 ≤ visible
    · cases he : w.g_enhanced_cursor <;> simp [boolToInt, hv]
    · cases he : w.g_enhanced_cursor <;> simp [boolToInt, hv]
  · simp only [if_neg hs]
    by_cases hv : 0 ≤ visible
    · by_cases hz : style = 0
      · simp [hz, notNot, hv]
      · simp [hz, notNot, hv]
    · by_cases hz : style = 0
      · simp [hz, notNot, hv]
      · simp [hz, notNot, hv]

/-- C11: in a run that starts with fresh statics, every call of `cursor_style` that is
effective (cursor not locked, setting enabled, `style` or `visible` specified) on a handle
whose cursor information can be read writes to that handle: as size the cached alternate
size if the resolved style is enhanced and the cached default size if it is default, and as
visibility the requested one if `visible` is specified and the one read before otherwise.
The alternate size is 50 if the cached default size is at least 75 and 100 otherwise; the
resolved style is `style` if specified and the cached enhanced flag otherwise, and it becomes
the cached flag. -/
theorem cursor_style_effective (w0 : CursorWorld) (cs : List CursorCall) (c : CursorCall)
    (ci0 : CONSOLE_CURSOR_INFO) (h0 : w0.fresh)
    (hread : GetConsoleCursorInfo c.env (if c.handle = 0 then c.env.stdout else c.handle)
      = some ci0)
    (hlock : c.env.s_locked_cursor_visibility = false)
    (hadj : c.env.adjust_cursor_style = true)
    (hspec : 0 ≤ c.style ∨ 0 ≤ c.visible) :
    GetConsoleCursorInfo (CursorCall.exec (CursorCall.run w0 cs) c)
        (if c.handle = 0 then c.env.stdout else c.handle) =
      some { dwSize := toDWORD (if cursor_style.resolved c.env c.style
               then (CursorCall.exec (CursorCall.run w0 cs) c).g_alternate_cursor_size
               else (CursorCall.exec (CursorCall.run w0 cs) c).g_default_cursor_size)
             bVisible := if 0 ≤ c.visible then boolToInt (notNot c.visible)
               else ci0.bVisible } ∧
      (CursorCall.exec (CursorCall.run w0 cs) c).g_alternate_cursor_size =
        (if 75 ≤ (CursorCall.exec (CursorCall.run w0 cs) c).g_default_cursor_size
          then 50 else 100) ∧
      (CursorCall.exec (CursorCall.run w0 cs) c).g_default_cursor_size =
        (if (CursorCall.run w0 cs).g_default_cursor_size < 0 then toInt32 ci0.dwSize
          else (CursorCall.run w0 cs).g_default_cursor_size) ∧
      (CursorCall.exec (CursorCall.run w0 cs) c).g_enhanced_cursor =
        cursor_style.resolved c.env c.style := by
  have hcoh := exec_coherent _ c (run_coherent cs w0 (fresh_coherent w0 h0))
  have hst := exec_statics (CursorCall.run w0 cs) c
  have hobs : c.observed = ci0 := by
    unfold CursorCall.observed
    rw [hread]
    rfl
  have hread2 : GetConsoleCursorInfo (c.enter (CursorCall.run w0 cs))
      (if c.handle = 0 then (c.enter (CursorCall.run w0 cs)).stdout else c.handle)
        = some ci0 := hread
  have hE := cursor_style_fst_of_effective (c.enter (CursorCall.run w0 cs)) c.handle
    c.style c.visible c.uninit hlock hadj hspec
  rw [hread2] at hE
  simp only [Option.getD_some] at hE
  have hexec : CursorCall.exec (CursorCall.run w0 cs) c =
      (cursor_style (c.enter (CursorCall.run w0 cs)) c.handle c.style c.visible
        c.uninit).1 := rfl
  rw [hobs] at hst
  obtain ⟨hcur, -, -, henh, -⟩ := capture_fields (c.enter (CursorCall.run w0 cs)) ci0
  refine ⟨?_, hcoh, ?_, ?_⟩
  · rw [hst.1, hst.2]
    rw [hexec, hE, GetConsoleCursorInfo_SetConsoleCursorInfo]
    have hsome : ((if c.style < 0 then
        cursor_style.capture (c.enter (CursorCall.run w0 cs)) ci0
        else { cursor_style.capture (c.enter (CursorCall.run w0 cs)) ci0 with
          g_enhanced_cursor := notNot c.style }).cursors
        (if c.handle = 0 then (c.enter (CursorCall.run w0 cs)).stdout else c.handle)).isSome
        = true := by
      have hc2 : (if c.style < 0 then
          cursor_style.capture (c.enter (CursorCall.run w0 cs)) ci0
          else { cursor_style.capture (c.enter (CursorCall.run w0 cs)) ci0 with
            g_enhanced_cursor := notNot c.style }).cursors = c.env.cursors := by
        by_cases hs : c.style < 0
        · rw [if_pos hs, hcur]; rfl
        · rw [if_neg hs]
          show (cursor_style.capture (c.enter (CursorCall.run w0 cs)) ci0).cursors = _
          rw [hcur]; rfl
      rw [hc2]
      have : c.env.cursors (if c.handle = 0 then c.env.stdout else c.handle) = some ci0 :=
        hread
      show (c.env.cursors (if c.handle = 0 then c.env.stdout else c.handle)).isSome = true
      rw [this]
      rfl
    rw [if_pos ⟨rfl, hsome⟩]
    rfl
  · rw [hst.1]
    unfold cursor_style.capture
    by_cases hneg : (CursorCall.run w0 cs).g_default_cursor_size < 0
    · have hneg2 : (c.enter (CursorCall.run w0 cs)).g_default_cursor_size < 0 := hneg
      rw [if_pos hneg2, if_pos hneg]
      simp only []
      by_cases h75 : toInt32 ci0.dwSize ≥ 75
      · rw [if_pos h75]
      · rw [if_neg h75]
    · have hneg2 : ¬ (c.enter (CursorCall.run w0 cs)).g_default_cursor_size < 0 := hneg
      rw [if_neg hneg2, if_neg hneg]
      rfl
  · rw [hexec, hE, SetConsoleCursorInfo_enhanced]
    unfold cursor_style.resolved
    by_cases hs : c.style < 0
    · rw [if_pos hs, if_pos hs, henh]
      rfl
    · rw [if_neg hs, if_neg hs]

/-- C11 on the second call of a run: the first call sees the size 80 and caches it, the
second call asks for the enhanced style and an invisible cursor while the host reports the
size 25, and writes the alternate size 50 with visibility 0. -/
theorem cursor_style_effective_witness :
    GetConsoleCursorInfo
        (CursorCall.exec
          (CursorCall.run (exampleCursorWorld 80 false true) [exampleCall 80 false true 0 1])
          (exampleCall 25 false true 1 0)) 7
      = some { dwSize := 50, bVisible := 0 } := by
  have h := cursor_style_effective (exampleCursorWorld 80 false true)
    [exampleCall 80 false true 0 1] (exampleCall 25 false true 1 0)
    { dwSize := 25, bVisible := 1 } ⟨rfl, rfl⟩ rfl rfl rfl (Or.inl (by decide))
  exact h.1.trans (by decide)

/-- C13: the code does not return the pre-call visibility on every call.  The value
`cursor_style` returns is, on every path, `!!ci.bVisible` of its local `ci`: the visibility
the handle reported (1 if visible, 0 if not) when `GetConsoleCursorInfo` succeeded, and what
the unwritten `ci` happened to hold when it failed.  On the handle `9`, which is not a
console, the same call in the same state returns 0 or 1 with the content of the unwritten
local. -/
theorem cursor_style_return_value :
    (∀ (w : CursorWorld) (handle : HANDLE) (style visible : Int)
        (uninit : CONSOLE_CURSOR_INFO),
      (cursor_style w handle style visible uninit).2 =
        (if ((GetConsoleCursorInfo w (if handle = 0 then w.stdout else handle)).getD
          uninit).bVisible ≠ 0 then 1 else 0)) ∧
      GetConsoleCursorInfo (exampleCursorWorld 25 false true) 9 = none ∧
      (cursor_style (exampleCursorWorld 25 false true) 9 1 (-1)
        { dwSize := 80, bVisible := 0 }).2 = 0 ∧
      (cursor_style (exampleCursorWorld 25 false true) 9 1 (-1)
        { dwSize := 80, bVisible := 1 }).2 = 1 := by
  refine ⟨fun w handle style visible uninit => ?_, by decide, by decide, by decide⟩
  rw [cursor_style_snd]
  unfold boolToInt notNot
  by_cases h : ((GetConsoleCursorInfo w (if handle = 0 then w.stdout else handle)).getD
      uninit).bVisible = 0
  · simp [h]
  · simp [h]

/-- C14: the code is not a no-op when reading the cursor information fails.  On the first
call of the process, on the handle `9`, which is not a console, with the cursor unlocked,
the setting enabled and `style = 1`, `cursor_style` caches the content of its unwritten
local `ci` (here the size 80) as the default size, sets the alternate size to 50 and sets
the cached enhanced flag, where the claim says all three stay as they were. -/
theorem cursor_style_read_failure_changes_caches :
    GetConsoleCursorInfo (exampleCursorWorld 25 false true) 9 = none ∧
      exampleFailedRead.1.g_default_cursor_size = 80 ∧
      exampleFailedRead.1.g_alternate_cursor_size = 50 ∧
      exampleFailedRead.1.g_enhanced_cursor = true ∧
      ¬ (exampleFailedRead.1.g_default_cursor_size
            = (exampleCursorWorld 25 false true).g_default_cursor_size ∧
          exampleFailedRead.1.g_alternate_cursor_size
            = (exampleCursorWorld 25 false true).g_alternate_cursor_size ∧
          exampleFailedRead.1.g_enhanced_cursor
            = (exampleCursorWorld 25 false true).g_enhanced_cursor) := by
  decide

/-! ## Input mode cache -/

theorem SetConsoleMode_fields (w : World) (h : HANDLE) (mode : DWORD) :
    (SetConsoleMode w h mode).stdin = w.stdin ∧
      (SetConsoleMode w h mode).s_host_input_mode = w.s_host_input_mode ∧
      (SetConsoleMode w h mode).s_clink_input_mode = w.s_clink_input_mode := by
  unfold SetConsoleMode
  cases w.modes h <;> exact ⟨rfl, rfl, rfl⟩

/-- The effect of `use_host_input_mode` when the standard input is a valid handle of a
console with mode `T`. -/
theorem use_host_input_mode_spec (w : World) (T : DWORD)
    (hvalid : w.stdin ≠ 0 ∧ w.stdin ≠ INVALID_HANDLE_VALUE)
    (hT : GetConsoleMode w w.stdin = some T) :
    (use_host_input_mode w).stdin = w.stdin ∧
      (use_host_input_mode w).s_host_input_mode = w.s_host_input_mode ∧
      (use_host_input_mode w).s_clink_input_mode = T ∧
      ∀ k, GetConsoleMode (use_host_input_mode w) k =
        if k = w.stdin ∧ w.s_host_input_mode ≠ DWORD_MINUS_ONE
        then some w.s_host_input_mode else GetConsoleMode w k := by
  have hT2 : w.modes w.stdin = some T := hT
  unfold use_host_input_mode
  simp only []
  rw [if_pos hvalid, hT]
  simp only []
  by_cases hH : w.s_host_input_mode = DWORD_MINUS_ONE
  · rw [if_neg (not_not.mpr hH)]
    refine ⟨rfl, rfl, rfl, fun k => ?_⟩
    rw [if_neg (fun h => h.2 hH)]
    rfl
  · rw [if_pos hH]
    obtain ⟨h1, h2, h3⟩ := SetConsoleMode_fields { w with s_clink_input_mode := T } w.stdin
      w.s_host_input_mode
    refine ⟨h1, h2, h3, fun k => ?_⟩
    rw [GetConsoleMode_SetConsoleMode]
    by_cases hk : k = w.stdin
    · have : ((({ w with s_clink_input_mode := T } : World).modes w.stdin).isSome) = true := by
        show (w.modes w.stdin).isSome = true
        rw [hT2]; rfl
      rw [if_pos ⟨hk, this⟩, if_pos ⟨hk, hH⟩]
    · rw [if_neg (fun h => hk h.1), if_neg (fun h => hk h.1)]
      rfl

/-- The effect of `use_clink_input_mode` when the standard input is a valid handle of a
console with mode `T`. -/
theorem use_clink_input_mode_spec (w : World) (T : DWORD)
    (hvalid : w.stdin ≠ 0 ∧ w.stdin ≠ INVALID_HANDLE_VALUE)
    (hT : GetConsoleMode w w.stdin = some T) :
    (use_clink_input_mode w).stdin = w.stdin ∧
      (use_clink_input_mode w).s_host_input_mode =
        (if w.s_host_input_mode = DWORD_MINUS_ONE then T else w.s_host_input_mode) ∧
      (use_clink_input_mode w).s_clink_input_mode = w.s_clink_input_mode ∧
      ∀ k, GetConsoleMode (use_clink_input_mode w) k =
        if k = w.stdin ∧ w.s_clink_input_mode ≠ DWORD_MINUS_ONE
        then some w.s_clink_input_mode else GetConsoleMode w k := by
  have hT2 : w.modes w.stdin = some T := hT
  unfold use_clink_input_mode
  simp only []
  rw [if_pos hvalid, hT]
  simp only []
  by_cases hH : w.s_host_input_mode = DWORD_MINUS_ONE
  · rw [if_pos hH, if_pos hH]
    by_cases hC : w.s_clink_input_mode = DWORD_MINUS_ONE
    · have hC2 : ¬ ({ w with s_host_input_mode := T } : World).s_clink_input_mode
          ≠ DWORD_MINUS_ONE := not_not.mpr hC
      rw [if_neg hC2]
      refine ⟨rfl, rfl, rfl, fun k => ?_⟩
      rw [if_neg (fun h => h.2 hC)]
      rfl
    · have hC2 : ({ w with s_host_input_mode := T } : World).s_clink_input_mode
          ≠ DWORD_MINUS_ONE := hC
      rw [if_pos hC2]
      obtain ⟨h1, h2, h3⟩ := SetConsoleMode_fields { w with s_host_input_mode := T } w.stdin
        w.s_clink_input_mode
      refine ⟨h1, h2, h3, fun k => ?_⟩
      show GetConsoleMode (SetConsoleMode { w with s_host_input_mode := T } w.stdin
        w.s_clink_input_mode) k = _
      rw [GetConsoleMode_SetConsoleMode]
      by_cases hk : k = w.stdin
      · have : ((({ w with s_host_input_mode := T } : World).modes w.stdin).isSome)
            = true := by
          show (w.modes w.stdin).isSome = true
          rw [hT2]; rfl
        rw [if_pos ⟨hk, this⟩, if_pos ⟨hk, hC⟩]
      · rw [if_neg (fun h => hk h.1), if_neg (fun h => hk h.1)]
        rfl
  · rw [if_neg hH, if_neg hH]
    by_cases hC : w.s_clink_input_mode = DWORD_MINUS_ONE
    · rw [if_neg (not_not.mpr hC)]
      refine ⟨rfl, rfl, rfl, fun k => ?_⟩
      rw [if_neg (fun h => h.2 hC)]
    · rw [if_pos hC]
      obtain ⟨h1, h2, h3⟩ := SetConsoleMode_fields w w.stdin w.s_clink_input_mode
      refine ⟨h1, h2, h3, fun k => ?_⟩
      rw [GetConsoleMode_SetConsoleMode]
      by_cases hk : k = w.stdin
      · have : (w.modes w.stdin).isSome = true := by
          rw [hT2]; rfl
        rw [if_pos ⟨hk, this⟩, if_pos ⟨hk, hC⟩]
      · rw [if_neg (fun h => hk h.1), if_neg (fun h => hk h.1)]

/-- Both functions do nothing when the standard input is not a valid handle of a
console. -/
theorem use_input_mode_of_no_console (w : World)
    (hno : ¬ (w.stdin ≠ 0 ∧ w.stdin ≠ INVALID_HANDLE_VALUE) ∨
      GetConsoleMode w w.stdin = none) :
    use_host_input_mode w = w ∧ use_clink_input_mode w = w := by
  unfold use_host_input_mode use_clink_input_mode
  simp only []
  rcases hno with hv | hn
  · rw [if_neg hv, if_neg hv]
    exact ⟨rfl, rfl⟩
  · have hn2 : w.modes w.stdin = none := hn
    by_cases hv : w.stdin ≠ 0 ∧ w.stdin ≠ INVALID_HANDLE_VALUE
    · rw [if_pos hv, if_pos hv, hn]
      simp only []
      constructor
      · by_cases hH : w.s_host_input_mode = DWORD_MINUS_ONE
        · rw [if_neg (not_not.mpr hH)]
        · rw [if_pos hH]
          unfold SetConsoleMode
          rw [hn2]
      · have e : (if w.s_host_input_mode = DWORD_MINUS_ONE then w else w) = w := by
          by_cases hH : w.s_host_input_mode = DWORD_MINUS_ONE
          · rw [if_pos hH]
          · rw [if_neg hH]
        rw [e]
        by_cases hC : w.s_clink_input_mode = DWORD_MINUS_ONE
        · rw [if_neg (not_not.mpr hC)]
        · rw [if_pos hC]
          unfold SetConsoleMode
          rw [hn2]
    · rw [if_neg hv, if_neg hv]
      exact ⟨rfl, rfl⟩

/-- C15, as stated, fails: with the host mode `0x47` recorded and the terminal in the mode
`0x18`, one call of `use_host_input_mode` caches `0x18` as the application mode and sets the
terminal to `0x47`; a second call overwrites the cached application mode with `0x47`, so
that the state after two calls is not the state after one. -/
theorem use_host_input_mode_twice_differs :
    (use_host_input_mode (exampleCacheWorld 0x18 0x47 DWORD_MINUS_ONE)).s_clink_input_mode
        = 0x18 ∧
      (use_host_input_mode (use_host_input_mode
        (exampleCacheWorld 0x18 0x47 DWORD_MINUS_ONE))).s_clink_input_mode = 0x47 ∧
      ¬ (GetConsoleMode (use_host_input_mode (use_host_input_mode
            (exampleCacheWorld 0x18 0x47 DWORD_MINUS_ONE))) 3 =
          GetConsoleMode (use_host_input_mode
            (exampleCacheWorld 0x18 0x47 DWORD_MINUS_ONE)) 3 ∧
        (use_host_input_mode (use_host_input_mode
            (exampleCacheWorld 0x18 0x47 DWORD_MINUS_ONE))).s_host_input_mode =
          (use_host_input_mode
            (exampleCacheWorld 0x18 0x47 DWORD_MINUS_ONE)).s_host_input_mode ∧
        (use_host_input_mode (use_host_input_mode
            (exampleCacheWorld 0x18 0x47 DWORD_MINUS_ONE))).s_clink_input_mode =
          (use_host_input_mode
            (exampleCacheWorld 0x18 0x47 DWORD_MINUS_ONE)).s_clink_input_mode) := by
  decide

/-- C15, amended: from every state, calling `use_host_input_mode` twice leaves the input
mode of every handle and the cached host mode as calling it once does, and the cached
application mode as well if no host mode is recorded or the terminal already is in the
host mode; calling `use_clink_input_mode` twice leaves the input mode of every handle and
the cached application mode as calling it once does, and the cached host mode as well if
a host mode is recorded or the terminal mode is not the sentinel `0xFFFFFFFF`. -/
theorem input_mode_twice (w : World) :
    ((∀ k, GetConsoleMode (use_host_input_mode (use_host_input_mode w)) k =
          GetConsoleMode (use_host_input_mode w) k) ∧
      (use_host_input_mode (use_host_input_mode w)).s_host_input_mode =
        (use_host_input_mode w).s_host_input_mode ∧
      (w.s_host_input_mode = DWORD_MINUS_ONE ∨
          GetConsoleMode w w.stdin = some w.s_host_input_mode →
        (use_host_input_mode (use_host_input_mode w)).s_clink_input_mode =
          (use_host_input_mode w).s_clink_input_mode)) ∧
    ((∀ k, GetConsoleMode (use_clink_input_mode (use_clink_input_mode w)) k =
          GetConsoleMode (use_clink_input_mode w) k) ∧
      (use_clink_input_mode (use_clink_input_mode w)).s_clink_input_mode =
        (use_clink_input_mode w).s_clink_input_mode ∧
      (w.s_host_input_mode ≠ DWORD_MINUS_ONE ∨
          GetConsoleMode w w.stdin ≠ some DWORD_MINUS_ONE →
        (use_clink_input_mode (use_clink_input_mode w)).s_host_input_mode =
          (use_clink_input_mode w).s_host_input_mode)) := by
  by_cases hvalid : w.stdin ≠ 0 ∧ w.stdin ≠ INVALID_HANDLE_VALUE
  · cases hT : GetConsoleMode w w.stdin with
    | none =>
      obtain ⟨e1, e2⟩ := use_input_mode_of_no_console w (Or.inr hT)
      rw [e1, e2, e1, e2]
      exact ⟨⟨fun _ => rfl, rfl, fun _ => rfl⟩, ⟨fun _ => rfl, rfl, fun _ => rfl⟩⟩
    | some T =>
      constructor
      · obtain ⟨hs, hH, hC, hm⟩ := use_host_input_mode_spec w T hvalid hT
        have hvalid1 : (use_host_input_mode w).stdin ≠ 0 ∧
            (use_host_input_mode w).stdin ≠ INVALID_HANDLE_VALUE := by rw [hs]; exact hvalid
        have hT1 : GetConsoleMode (use_host_input_mode w) (use_host_input_mode w).stdin =
            some (if w.s_host_input_mode ≠ DWORD_MINUS_ONE then w.s_host_input_mode
              else T) := by
          rw [hs, hm]
          by_cases hHs : w.s_host_input_mode = DWORD_MINUS_ONE
          · rw [if_neg (fun h => h.2 hHs), if_neg (not_not.mpr hHs), hT]
          · rw [if_pos ⟨rfl, hHs⟩, if_pos hHs]
        obtain ⟨-, hH2, hC2, hm2⟩ := use_host_input_mode_spec (use_host_input_mode w) _
          hvalid1 hT1
        refine ⟨fun k => ?_, hH2, fun hcond => ?_⟩
        · rw [hm2 k, hs, hH, hm k]
          by_cases hc : k = w.stdin ∧ w.s_host_input_mode ≠ DWORD_MINUS_ONE
          · rw [if_pos hc, if_pos hc]
          · rw [if_neg hc]
        · rw [hC2, hC]
          rcases hcond with hc | hc
          · rw [if_neg (not_not.mpr hc)]
          · by_cases hHs : w.s_host_input_mode = DWORD_MINUS_ONE
            · rw [if_neg (not_not.mpr hHs)]
            · rw [if_pos hHs]
              exact (Option.some.inj hc).symm
      · obtain ⟨hs, hH, hC, hm⟩ := use_clink_input_mode_spec w T hvalid hT
        have hvalid1 : (use_clink_input_mode w).stdin ≠ 0 ∧
            (use_clink_input_mode w).stdin ≠ INVALID_HANDLE_VALUE := by rw [hs]; exact hvalid
        have hT1 : GetConsoleMode (use_clink_input_mode w) (use_clink_input_mode w).stdin =
            some (if w.s_clink_input_mode ≠ DWORD_MINUS_ONE then w.s_clink_input_mode
              else T) := by
          rw [hs, hm]
          by_cases hCs : w.s_clink_input_mode = DWORD_MINUS_ONE
          · rw [if_neg (fun h => h.2 hCs), if_neg (not_not.mpr hCs), hT]
          · rw [if_pos ⟨rfl, hCs⟩, if_pos hCs]
        obtain ⟨-, hH2, hC2, hm2⟩ := use_clink_input_mode_spec (use_clink_input_mode w) _
          hvalid1 hT1
        refine ⟨fun k => ?_, hC2, fun hcond => ?_⟩
        · rw [hm2 k, hs, hC, hm k]
          by_cases hc : k = w.stdin ∧ w.s_clink_input_mode ≠ DWORD_MINUS_ONE
          · rw [if_pos hc, if_pos hc]
          · rw [if_neg hc]
        · rw [hH2, hH]
          have hne : (if w.s_host_input_mode = DWORD_MINUS_ONE then T
              else w.s_host_input_mode) ≠ DWORD_MINUS_ONE := by
            by_cases hHs : w.s_host_input_mode = DWORD_MINUS_ONE
            · rw [if_pos hHs]
              rcases hcond with hc | hc
              · exact absurd hHs hc
              · intro hTs
                exact hc (by rw [hTs])
            · rw [if_neg hHs]
              exact hHs
          rw [if_neg hne]
  · obtain ⟨e1, e2⟩ := use_input_mode_of_no_console w (Or.inl hvalid)
    rw [e1, e2, e1, e2]
    exact ⟨⟨fun _ => rfl, rfl, fun _ => rfl⟩, ⟨fun _ => rfl, rfl, fun _ => rfl⟩⟩

/-- The amended C15 on the state with the terminal in the mode `0x18`, the host mode `0x47`
and the application mode `0x1F7` recorded: after two calls of `use_clink_input_mode` the
terminal is in the mode `0x1F7` and the cached host mode is `0x47`, as after one call. -/
theorem input_mode_twice_witness :
    GetConsoleMode (use_clink_input_mode (use_clink_input_mode
        (exampleCacheWorld 0x18 0x47 0x1F7))) 3 = some 0x1F7 ∧
      (use_clink_input_mode (use_clink_input_mode
        (exampleCacheWorld 0x18 0x47 0x1F7))).s_host_input_mode = 0x47 := by
  have h := input_mode_twice (exampleCacheWorld 0x18 0x47 0x1F7)
  exact ⟨(h.2.1 3).trans (by decide), (h.2.2.2 (Or.inl (by decide))).trans (by decide)⟩

/-- C18: when the standard input is a valid handle of a console with mode `T`,
`use_clink_input_mode` stores `T`, the mode before the call, as the cached host mode if no
host mode is recorded, and leaves the cached host mode unchanged if one is recorded; in
both cases the terminal mode afterwards is the cached application mode if one is
recorded, and `T` otherwise.  The cached application mode and the mode of every other
handle are unchanged. -/
theorem use_clink_input_mode_seeds_host (w : World) (T : DWORD)
    (hvalid : w.stdin ≠ 0 ∧ w.stdin ≠ INVALID_HANDLE_VALUE)
    (hT : GetConsoleMode w w.stdin = some T) :
    (use_clink_input_mode w).s_host_input_mode =
        (if w.s_host_input_mode = DWORD_MINUS_ONE then T else w.s_host_input_mode) ∧
      GetConsoleMode (use_clink_input_mode w) w.stdin =
        some (if w.s_clink_input_mode ≠ DWORD_MINUS_ONE then w.s_clink_input_mode else T) ∧
      (use_clink_input_mode w).s_clink_input_mode = w.s_clink_input_mode ∧
      (∀ k, k ≠ w.stdin → GetConsoleMode (use_clink_input_mode w) k = GetConsoleMode w k) := by
  obtain ⟨-, hH, hC, hm⟩ := use_clink_input_mode_spec w T hvalid hT
  refine ⟨hH, ?_, hC, fun k hk => ?_⟩
  · rw [hm]
    by_cases hCs : w.s_clink_input_mode = DWORD_MINUS_ONE
    · rw [if_neg (fun h => h.2 hCs), if_neg (not_not.mpr hCs), hT]
    · rw [if_pos ⟨rfl, hCs⟩, if_pos hCs]
  · rw [hm, if_neg (fun h => hk h.1)]

/-- C18 on a terminal in the mode `0x47` with no host mode and the application mode `0x18`
recorded: the host mode `0x47` is cached and the terminal is set to `0x18`. -/
theorem use_clink_input_mode_seeds_host_witness :
    (use_clink_input_mode (exampleCacheWorld 0x47 DWORD_MINUS_ONE 0x18)).s_host_input_mode
        = 0x47 ∧
      GetConsoleMode (use_clink_input_mode (exampleCacheWorld 0x47 DWORD_MINUS_ONE 0x18)) 3
        = some 0x18 :=
  have h := use_clink_input_mode_seeds_host (exampleCacheWorld 0x47 DWORD_MINUS_ONE 0x18)
    0x47 (by decide) rfl
  ⟨h.1, h.2.1⟩

/-- The working mode is never the sentinel `0xFFFFFFFF`. -/
theorem working_mode_ne_sentinel (a : Bool) (s : Int) (h : ansi_handler) (M : DWORD) :
    console_config.working_mode a s h M ≠ DWORD_MINUS_ONE := by
  cases a
  · show (0 : Nat) ≠ DWORD_MINUS_ONE
    decide
  · intro he
    have h0 := working_mode_testBit_low s h M 0 (by decide)
    rw [he] at h0
    exact absurd h0 (by decide)

/-- The fields of the state after the constructor of `console_config`. -/
theorem ctor_fields (w : World) (handle : HANDLE) (a : Bool) (uninit : DWORD) :
    (console_config.ctor w handle a uninit).1.stdin = w.stdin ∧
      (console_config.ctor w handle a uninit).1.s_host_input_mode =
        (GetConsoleMode w (console_config.resolve_handle w handle)).getD uninit ∧
      (console_config.ctor w handle a uninit).1.s_clink_input_mode
        = w.s_clink_input_mode := by
  rw [ctor_fst]
  exact SetConsoleMode_fields _ _ _

/-- C19: while a `console_config` acquired on the standard input, a valid handle of a
console with initial mode `M` other than the sentinel `0xFFFFFFFF`, is active and has
applied the working mode `W`, `use_host_input_mode` sets the terminal mode to `M`, a
following `use_clink_input_mode` sets it to `W` again, and the destructor afterwards
sets it to `M`. -/
theorem console_config_host_clink_switch (w : World) (handle : HANDLE) (a : Bool)
    (uninit M : DWORD)
    (hvalid : w.stdin ≠ 0 ∧ w.stdin ≠ INVALID_HANDLE_VALUE)
    (hstd : handle = 0 ∨ handle = w.stdin)
    (hM : GetConsoleMode w w.stdin = some M) (hMs : M ≠ DWORD_MINUS_ONE) :
    GetConsoleMode (console_config.ctor w handle a uninit).1 w.stdin =
        some (console_config.working_mode a w.mouse_input w.native M) ∧
      GetConsoleMode (use_host_input_mode (console_config.ctor w handle a uninit).1) w.stdin
        = some M ∧
      GetConsoleMode (use_clink_input_mode (use_host_input_mode
          (console_config.ctor w handle a uninit).1)) w.stdin =
        some (console_config.working_mode a w.mouse_input w.native M) ∧
      GetConsoleMode (console_config.dtor (use_clink_input_mode (use_host_input_mode
          (console_config.ctor w handle a uninit).1))
          (console_config.ctor w handle a uninit).2) w.stdin = some M := by
  have hres : console_config.resolve_handle w handle = w.stdin := by
    unfold console_config.resolve_handle
    rcases hstd with h | h
    · rw [if_neg (not_not.mpr h)]
    · rw [h, if_pos hvalid.1]
  have hM2 : GetConsoleMode w (console_config.resolve_handle w handle) = some M := by
    rw [hres]; exact hM
  obtain ⟨hs1, hH1, -⟩ := ctor_fields w handle a uninit
  rw [hM2] at hH1
  have hH1M : (console_config.ctor w handle a uninit).1.s_host_input_mode = M := hH1
  have hT1 : GetConsoleMode (console_config.ctor w handle a uninit).1 w.stdin =
      some (console_config.working_mode a w.mouse_input w.native M) := by
    rw [GetConsoleMode_ctor w handle a uninit M hM2, hres, if_pos rfl]
  have hvalid1 : (console_config.ctor w handle a uninit).1.stdin ≠ 0 ∧
      (console_config.ctor w handle a uninit).1.stdin ≠ INVALID_HANDLE_VALUE := by
    rw [hs1]; exact hvalid
  have hT1s : GetConsoleMode (console_config.ctor w handle a uninit).1
      (console_config.ctor w handle a uninit).1.stdin =
      some (console_config.working_mode a w.mouse_input w.native M) := by
    rw [hs1]; exact hT1
  obtain ⟨hs2, hH2, hC2, hm2⟩ := use_host_input_mode_spec _ _ hvalid1 hT1s
  have hT2 : GetConsoleMode (use_host_input_mode (console_config.ctor w handle a uninit).1)
      w.stdin = some M := by
    rw [hm2, hs1, hH1M, if_pos ⟨rfl, hMs⟩]
  have hvalid2 : (use_host_input_mode (console_config.ctor w handle a uninit).1).stdin ≠ 0 ∧
      (use_host_input_mode (console_config.ctor w handle a uninit).1).stdin
        ≠ INVALID_HANDLE_VALUE := by
    rw [hs2]; exact hvalid1
  have hT2s : GetConsoleMode (use_host_input_mode (console_config.ctor w handle a uninit).1)
      (use_host_input_mode (console_config.ctor w handle a uninit).1).stdin = some M := by
    rw [hs2, hs1]; exact hT2
  obtain ⟨-, -, -, hm3⟩ := use_clink_input_mode_spec _ _ hvalid2 hT2s
  have hT3 : GetConsoleMode (use_clink_input_mode (use_host_input_mode
      (console_config.ctor w handle a uninit).1)) w.stdin =
      some (console_config.working_mode a w.mouse_input w.native M) := by
    rw [hm3, hs2, hs1, hC2, if_pos ⟨rfl, working_mode_ne_sentinel a _ _ M⟩]
  refine ⟨hT1, hT2, hT3, ?_⟩
  have e : (console_config.ctor w handle a uninit).2 =
      { m_handle := w.stdin, m_prev_mode := M,
        m_prev_accept_mouse_input := w.g_accept_mouse_input } := by
    rw [ctor_snd, hM2, hres]
    rfl
  rw [e]
  show GetConsoleMode (SetConsoleMode (use_clink_input_mode (use_host_input_mode
      (console_config.ctor w handle a uninit).1)) w.stdin M) w.stdin = some M
  rw [GetConsoleMode_SetConsoleMode]
  have hsome : ((use_clink_input_mode (use_host_input_mode
      (console_config.ctor w handle a uninit).1)).modes w.stdin).isSome = true := by
    have : (use_clink_input_mode (use_host_input_mode
        (console_config.ctor w handle a uninit).1)).modes w.stdin =
        some (console_config.working_mode a w.mouse_input w.native M) := hT3
    rw [this]; rfl
  rw [if_pos ⟨rfl, hsome⟩]

/-- C19 on a console in the mode `0x47`, with the session accepting mouse input, the mouse
setting on and a legacy console host: the working mode is `0x18`, `use_host_input_mode`
sets `0x47`, `use_clink_input_mode` sets `0x18`, and the destructor sets `0x47`. -/
theorem console_config_host_clink_switch_witness :
    GetConsoleMode (use_host_input_mode
        (console_config.ctor (exampleWorld 0x47 false 1 ansi_handler.winconsole) 0 true 0).1)
        3 = some 0x47 ∧
      GetConsoleMode (use_clink_input_mode (use_host_input_mode
        (console_config.ctor (exampleWorld 0x47 false 1 ansi_handler.winconsole) 0 true 0).1))
        3 = some 0x18 ∧
      GetConsoleMode (console_config.dtor (use_clink_input_mode (use_host_input_mode
        (console_config.ctor (exampleWorld 0x47 false 1 ansi_handler.winconsole) 0 true 0).1))
        (console_config.ctor (exampleWorld 0x47 false 1 ansi_handler.winconsole) 0 true 0).2)
        3 = some 0x47 :=
  have h := console_config_host_clink_switch
    (exampleWorld 0x47 false 1 ansi_handler.winconsole) 0 true 0 0x47
    (by decide) (Or.inl rfl) rfl (by decide)
  ⟨h.2.1, h.2.2.1, h.2.2.2⟩

/-- C20: from every state of the input mode cache, with the standard input a valid handle
of a console whose mode `T` is not the sentinel `0xFFFFFFFF`, `use_host_input_mode`
followed by `use_clink_input_mode` leaves the terminal mode equal to `T`.  The reverse
order does not: with the host mode `0x47` recorded, no application mode recorded and the
terminal in the mode `0x18`, `use_clink_input_mode` followed by `use_host_input_mode`
leaves the terminal in the mode `0x47`. -/
theorem use_host_then_clink_input_mode (w : World) (T : DWORD)
    (hvalid : w.stdin ≠ 0 ∧ w.stdin ≠ INVALID_HANDLE_VALUE)
    (hT : GetConsoleMode w w.stdin = some T) (hTs : T ≠ DWORD_MINUS_ONE) :
    GetConsoleMode (use_clink_input_mode (use_host_input_mode w)) w.stdin = some T ∧
      (GetConsoleMode (exampleCacheWorld 0x18 0x47 DWORD_MINUS_ONE) 3 = some 0x18 ∧
        GetConsoleMode (use_host_input_mode (use_clink_input_mode
          (exampleCacheWorld 0x18 0x47 DWORD_MINUS_ONE))) 3 = some 0x47) := by
  refine ⟨?_, by decide⟩
  obtain ⟨hs, -, hC, hm⟩ := use_host_input_mode_spec w T hvalid hT
  have hvalid1 : (use_host_input_mode w).stdin ≠ 0 ∧
      (use_host_input_mode w).stdin ≠ INVALID_HANDLE_VALUE := by rw [hs]; exact hvalid
  have hT1 : GetConsoleMode (use_host_input_mode w) (use_host_input_mode w).stdin =
      some (if w.s_host_input_mode ≠ DWORD_MINUS_ONE then w.s_host_input_mode else T) := by
    rw [hs, hm]
    by_cases hHs : w.s_host_input_mode = DWORD_MINUS_ONE
    · rw [if_neg (fun h => h.2 hHs), if_neg (not_not.mpr hHs), hT]
    · rw [if_pos ⟨rfl, hHs⟩, if_pos hHs]
  obtain ⟨-, -, -, hm2⟩ := use_clink_input_mode_spec (use_host_input_mode w) _ hvalid1 hT1
  rw [hm2, hs, hC, if_pos ⟨rfl, hTs⟩]

/-- C20 on a terminal in the mode `0x18` with the host mode `0x47` and the application mode
`0x1F7` recorded: after `use_host_input_mode` and `use_clink_input_mode` the terminal is in
the mode `0x18`. -/
theorem use_host_then_clink_input_mode_witness :
    GetConsoleMode (use_clink_input_mode (use_host_input_mode
      (exampleCacheWorld 0x18 0x47 0x1F7))) 3 = some 0x18 :=
  (use_host_then_clink_input_mode (exampleCacheWorld 0x18 0x47 0x1F7) 0x18
    (by decide) rfl (by decide)).1

/-! ## The class `shadow_bool` -/

theorem shadow_run_append (s : shadow_bool) (ops : List ShadowOp) (op : ShadowOp) :
    s.run (ops ++ [op]) = ShadowOp.apply (s.run ops) op := by
  unfold shadow_bool.run
  rw [List.foldl_append]
  rfl

theorem sinceReset_append (ops : List ShadowOp) (op : ShadowOp) :
    ShadowOp.sinceReset (ops ++ [op]) =
      match op with
      | ShadowOp.reset => []
      | _ => op :: ShadowOp.sinceReset ops := by
  unfold ShadowOp.sinceReset
  rw [List.reverse_append]
  cases op <;> simp [List.takeWhile]

/-- The members of the object after a sequence of calls, in terms of the calls since the
last `reset`. -/
theorem shadow_run_members (d : Bool) (uninit : shadow_bool) (ops : List ShadowOp) :
    ((shadow_bool.ctor d uninit).run ops).m_default = d ∧
      ((shadow_bool.ctor d uninit).run ops).m_has_explicit
        = (ShadowOp.lastExplicit ops).isSome ∧
      ((shadow_bool.ctor d uninit).run ops).m_explicit
        = (ShadowOp.lastExplicit ops).getD false ∧
      ((shadow_bool.ctor d uninit).run ops).m_implicit
        = (ShadowOp.lastImplicit ops).getD d := by
  induction ops using List.reverseRecOn with
  | nil => exact ⟨rfl, rfl, rfl, rfl⟩
  | append_singleton l op ih =>
    obtain ⟨hd, hh, he, hi⟩ := ih
    rw [shadow_run_append]
    unfold ShadowOp.lastExplicit ShadowOp.lastImplicit at *
    rw [sinceReset_append]
    cases op with
    | reset =>
      refine ⟨hd, rfl, rfl, ?_⟩
      show ((shadow_bool.ctor d uninit).run l).m_default = _
      rw [hd]
      rfl
    | set_explicit v =>
      refine ⟨hd, rfl, rfl, ?_⟩
      show ((shadow_bool.ctor d uninit).run l).m_implicit = _
      rw [hi]
      simp [List.findSome?]
    | set_implicit v =>
      refine ⟨hd, ?_, ?_, rfl⟩
      · show ((shadow_bool.ctor d uninit).run l).m_has_explicit = _
        rw [hh]
        simp [List.findSome?]
      · show ((shadow_bool.ctor d uninit).run l).m_explicit = _
        rw [he]
        simp [List.findSome?]

/-- C16: after any sequence of `reset`, `set_explicit` and `set_implicit` calls on a
`shadow_bool` constructed with default `d`, `get()` is the argument of the most recent
`set_explicit` since construction or the last `reset` if there is one, otherwise the
argument of the most recent `set_implicit` since then if there is one, otherwise `d`;
`is_explicit()` is true exactly in the first case; and a further `set_implicit(v)` leaves
`get()` unchanged while an explicit value is set (and makes it `v` otherwise). -/
theorem shadow_bool_get (d : Bool) (uninit : shadow_bool) (ops : List ShadowOp) :
    ((shadow_bool.ctor d uninit).run ops).get = ShadowOp.expected_get d ops ∧
      ((shadow_bool.ctor d uninit).run ops).is_explicit
        = (ShadowOp.lastExplicit ops).isSome ∧
      ∀ v, (((shadow_bool.ctor d uninit).run ops).set_implicit v).get =
        if ((shadow_bool.ctor d uninit).run ops).is_explicit
        then ((shadow_bool.ctor d uninit).run ops).get else v := by
  obtain ⟨-, hh, he, hi⟩ := shadow_run_members d uninit ops
  refine ⟨?_, hh, fun v => ?_⟩
  · unfold shadow_bool.get ShadowOp.expected_get
    rw [hh, he, hi]
    cases ShadowOp.lastExplicit ops with
    | some a => rfl
    | none =>
      cases ShadowOp.lastImplicit ops with
      | some b => rfl
      | none => rfl
  · unfold shadow_bool.get shadow_bool.set_implicit shadow_bool.is_explicit
    cases ((shadow_bool.ctor d uninit).run ops).m_has_explicit <;> rfl

/-! ## Settings -/

/-- C17, as stated, fails: the default of the mouse-input setting is `2` (auto), not `0`
(off), and with this default the mouse policy resolver of a session that accepts mouse
input on a legacy console changes the mode `0` to `{mouse-input}`. -/
theorem mouse_input_default_not_off :
    g_mouse_input.get = 2 ∧
      ¬ (g_adjust_cursor_style.get = true ∧ g_mouse_input.get = 0) ∧
      select_mouse_input true g_mouse_input.get ansi_handler.winconsole 0 ≠ 0 := by
  decide

/-- C17, amended: the adjust-cursor-style setting defaults to true and the mouse-input
setting defaults to auto (`2`), so that with untouched settings the mouse policy resolver
of a session that accepts mouse input sets mouse-input on ConEmu and, on every other host,
sets it if quick-edit is clear in the mode and leaves the mode unchanged otherwise. -/
theorem settings_defaults :
    g_adjust_cursor_style.get = true ∧ g_mouse_input.get = 2 ∧
      ∀ (m : DWORD) (h : ansi_handler),
        select_mouse_input true g_mouse_input.get h m =
          (if h = ansi_handler.conemu then m ||| ENABLE_MOUSE_INPUT
           else if m &&& ENABLE_QUICK_EDIT_MODE = 0 then m ||| ENABLE_MOUSE_INPUT else m) := by
  refine ⟨rfl, rfl, fun m h => ?_⟩
  show select_mouse_input true 2 h m = _
  cases h
  · show m ||| (if m &&& ENABLE_QUICK_EDIT_MODE ≠ 0 then 0 else ENABLE_MOUSE_INPUT) = _
    by_cases hq : m &&& ENABLE_QUICK_EDIT_MODE = 0
    · simp [hq]
    · simp [hq]
  · rfl
  · show m ||| (if m &&& ENABLE_QUICK_EDIT_MODE ≠ 0 then 0 else ENABLE_MOUSE_INPUT) = _
    by_cases hq : m &&& ENABLE_QUICK_EDIT_MODE = 0
    · simp [hq]
    · simp [hq]

end Clink
